import Mathlib

/-!
Verification of the report-compilation pipeline of `src/builder.js`
(TP-Custom-Reports): a shallow embedding of the hierarchical join engine,
the relationship resolver, and the artifact compiler, with theorems
settling the specification claims.

JavaScript primitive values are modelled by `JValue` (numbers as `Int`;
the claims under study only concern strict cross-type (non-)equality and
null/undefined handling, which are independent of numeric width; `NaN`,
for which JS `===` is irreflexive, is outside the model).  Records carry
the four field locations of the data model; `tags`, `properties` and
`namespaces` are `Option`s because a fetched record may lack them
(JS `undefined`), which the source tests with `!tags` etc.
-/

namespace TPReport

/-- A JavaScript primitive value as it occurs in entity records. -/
inductive JValue where
  | vUndefined : JValue
  | vNull : JValue
  | vBool : Bool → JValue
  | vNum : Int → JValue
  | vStr : String → JValue
deriving DecidableEq, Repr

/-- JS truthiness test `x !== undefined && x !== null` used by
`getRelationshipValue`'s auto-probing fallback. -/
def JValue.isPresent : JValue → Bool
  | .vUndefined => false
  | .vNull => false
  | _ => true

/-- Whether `p` is a leading segment of `l` (character lists). -/
def leadingSeg : List Char → List Char → Bool
  | [], _ => true
  | _ :: _, [] => false
  | a :: ps, b :: ls => a == b && leadingSeg ps ls

/-- JS `String.prototype.startsWith`, implemented over the character list
so that it evaluates by kernel reduction. -/
def jsStartsWith (s pre : String) : Bool :=
  leadingSeg pre.data s.data

/-- JS `String.prototype.split` at a separator character (every
occurrence, empty pieces kept). -/
def splitOnChar (sep : Char) : List Char → List (List Char)
  | [] => [[]]
  | c :: rest =>
    match splitOnChar sep rest with
    | [] => [[]]
    | h :: t => if c == sep then [] :: h :: t else (c :: h) :: t

/-- `location.split(':')[1]`: the namespace name of a
`namespace:<ns>` location string (`""` when absent, as JS `undefined`
stringified never occurs because callers guard with `startsWith`). -/
def nsNameOf (loc : String) : String :=
  String.mk ((splitOnChar ':' loc.data).getD 1 [])

/-- An entity record as consumed by the generated renderer: plain (basic)
properties, and optional `tags`, `properties` and `namespaces` arrays.
A namespace entry's `properties` array is itself optional (the source
guards it with `!ns?.properties`). -/
structure JRecord where
  basic : List (String × JValue)
  tags : Option (List (String × JValue)) := none
  props : Option (List (String × JValue)) := none
  namespaces : Option (List (String × Option (List (String × JValue)))) := none
deriving DecidableEq, Repr

/-- `entity[fieldName]`: direct property access; a missing key yields
JS `undefined`. -/
def basicValue (entity : JRecord) (fieldName : String) : JValue :=
  match entity.basic.find? (fun kv => kv.1 == fieldName) with
  | some kv => kv.2
  | none => .vUndefined

/-- `getTagValue(tags, key)` from the generated helper functions
(src/builder.js:2679): `if (!tags) return null; const tag = tags.find(t =>
t.key === key); return tag?.value;`. -/
def getTagValue (tags : Option (List (String × JValue))) (key : String) : JValue :=
  match tags with
  | none => .vNull
  | some ts =>
    match ts.find? (fun t => t.1 == key) with
    | some t => t.2
    | none => .vUndefined

/-- `getPropertyValue(properties, name)` (src/builder.js:2685). -/
def getPropertyValue (props : Option (List (String × JValue))) (name : String) : JValue :=
  match props with
  | none => .vNull
  | some ps =>
    match ps.find? (fun p => p.1 == name) with
    | some p => p.2
    | none => .vUndefined

/-- `getNamespaceProperty(entity, nsName, propName)` (src/builder.js:2691). -/
def getNamespaceProperty (entity : JRecord) (nsName propName : String) : JValue :=
  match entity.namespaces with
  | none => .vNull
  | some nss =>
    match nss.find? (fun n => n.1 == nsName) with
    | none => .vNull
    | some ns =>
      match ns.2 with
      | none => .vNull
      | some props =>
        match props.find? (fun p => p.1 == propName) with
        | some p => p.2
        | none => .vUndefined

/-- The namespace-scanning loop at the end of
`ReportRenderer.getRelationshipValue` (src/builder.js:2658-2663):
`for (const ns of entity.namespaces) { const prop =
ns.properties?.find(p => p.name === fieldName); if (prop) return
prop.value; }`. -/
def autoNamespaceValue (nss : List (String × Option (List (String × JValue))))
    (fieldName : String) : JValue :=
  match nss with
  | [] => .vUndefined
  | ns :: rest =>
    match ns.2 with
    | none => autoNamespaceValue rest fieldName
    | some props =>
      match props.find? (fun p => p.1 == fieldName) with
      | some p => p.2
      | none => autoNamespaceValue rest fieldName

/-- `ReportRenderer.getRelationshipValue(entity, fieldName, location)`
(src/builder.js:2627-2666).  The `!entity` guard cannot fire in the model
(a `JRecord` is never JS `null`); `!fieldName` fires on the empty string.
A missing/empty `location` becomes `'auto'`, which probes
basic → property → tag → namespaces. -/
def getRelationshipValue (entity : JRecord) (fieldName : String) (location : String) : JValue :=
  if fieldName == "" then .vUndefined
  else
    let loc := if location == "" then "auto" else location
    if loc == "basic" then basicValue entity fieldName
    else if loc == "tag" then getTagValue entity.tags fieldName
    else if loc == "property" then getPropertyValue entity.props fieldName
    else if jsStartsWith loc "namespace:" then
      getNamespaceProperty entity (nsNameOf loc) fieldName
    else
      let bv := basicValue entity fieldName
      if bv.isPresent then bv
      else
        let pv := getPropertyValue entity.props fieldName
        if pv.isPresent then pv
        else
          let tv := getTagValue entity.tags fieldName
          if tv.isPresent then tv
          else
            match entity.namespaces with
            | none => .vUndefined
            | some nss => autoNamespaceValue nss fieldName

/-- `ReportRenderer.valuesMatch(parentValue, childValue)`
(src/builder.js:2668-2672): `null`/`undefined` on either side never
matches; otherwise JS strict equality `===`, which on primitives is
constructor-and-payload equality with no type coercion. -/
def valuesMatch (parentValue childValue : JValue) : Bool :=
  if parentValue == .vUndefined || parentValue == .vNull then false
  else if childValue == .vUndefined || childValue == .vNull then false
  else parentValue == childValue

/-- A configured relationship (join step) between two adjacent entity
types.  Field `from` of the source object is spelled `from_`, and `to` is spelled `to_` (both are
Lean keywords). -/
structure Relationship where
  from_ : String
  to_ : String
  fromField : String
  toField : String
  fromLocation : String
  toLocation : String
deriving DecidableEq, Repr

/-- `this.entityData[et] || []`: per-entity-type data arrays, missing
entity types yielding the empty array. -/
def dataFor (entityData : List (String × List JRecord)) (et : String) : List JRecord :=
  match entityData.find? (fun kv => kv.1 == et) with
  | some kv => kv.2
  | none => []

/-- A node of the hierarchical join tree: `{ entityType, entity,
children }` (src/builder.js:2582).  `entityType` is `Option`al because
the source reads `this.entityTypes[depth]`, which is `undefined` past the
end of the array. -/
inductive Node where
  | node : Option String → JRecord → List Node → Node
deriving Repr

/-- The `entityType` component of a node. -/
def Node.entityType : Node → Option String
  | .node t _ _ => t

/-- The `entity` component of a node. -/
def Node.entity : Node → JRecord
  | .node _ e _ => e

/-- The `children` component of a node. -/
def Node.children : Node → List Node
  | .node _ _ c => c

/-- `ReportRenderer.buildNode(depth, entity)` (src/builder.js:2580-2593),
restated over the suffixes `entityTypes.drop depth` and
`relationships.drop depth`: the source recurses on `depth + 1` and reads
`this.entityTypes[depth]` and `this.relationships[depth]`, which are the
heads of the corresponding suffixes; recursion stops exactly when
`depth ≥ relationships.length`, i.e. when the relationship suffix is
empty. -/
def buildNode (entityData : List (String × List JRecord)) :
    List String → List Relationship → JRecord → Node
  | etypes, [], entity => .node etypes.head? entity []
  | etypes, rel :: rest, entity =>
    let children := (dataFor entityData rel.to_).filter (fun child =>
      valuesMatch (getRelationshipValue entity rel.fromField rel.fromLocation)
        (getRelationshipValue child rel.toField rel.toLocation))
    .node etypes.head? entity
      (children.map (fun child => buildNode entityData etypes.tail rest child))

/-- The configuration the generated renderer is constructed from
(`builderConfig`): entity types in chain order and the per-step
relationships. -/
structure RendererConfig where
  entityTypes : List String
  relationships : List Relationship
deriving Repr

/-- `ReportRenderer.buildNodes()` (src/builder.js:2574-2578): one root
node per record of the first entity type, no filtering at the root. -/
def buildNodes (cfg : RendererConfig) (entityData : List (String × List JRecord)) :
    List Node :=
  match cfg.entityTypes with
  | [] => []
  | et0 :: _ =>
    (dataFor entityData et0).map (fun root =>
      buildNode entityData cfg.entityTypes cfg.relationships root)

/-- The `depthCount` of `collectRows`: `this.entityTypes.length || 1`. -/
def depthCount (cfg : RendererConfig) : Nat :=
  if cfg.entityTypes.length == 0 then 1 else cfg.entityTypes.length

/-- The inner `traverse` of `ReportRenderer.collectRows`
(src/builder.js:2600-2608).  A row is a fixed-width array of
`Node`-or-`null`; `nextRow = currentRow.slice(); nextRow[depth] = node`
is `List.set` (the recursion keeps `depth < depthCount`, so the JS
assignment never grows the array and agrees with `List.set`). -/
def traverse (dc : Nat) (depth : Nat) : Node → List (Option Node) → List (List (Option Node))
  | Node.node et e children, currentRow =>
    let nextRow := currentRow.set depth (some (Node.node et e children))
    if children.isEmpty || depth == dc - 1 then [nextRow]
    else children.attach.flatMap (fun c => traverse dc (depth + 1) c.1 nextRow)
termination_by n _ => sizeOf n
decreasing_by
  simp_wf
  have h := List.sizeOf_lt_of_mem c.2
  omega

/-- The fallback row object `{ entity }` pushed by `collectRows` when the
tree is empty (src/builder.js:2618): an object with only an `entity`
property (its `entityType` and `children` are JS `undefined`; no consumer
of fallback rows reads them, and the model uses `none` and `[]`). -/
def fallbackNode (entity : JRecord) : Node := .node none entity []

/-- `ReportRenderer.collectRows()` (src/builder.js:2595-2625). -/
def collectRows (cfg : RendererConfig) (entityData : List (String × List JRecord)) :
    List (List (Option Node)) :=
  let nodes := buildNodes cfg entityData
  let dc := depthCount cfg
  let rows := nodes.flatMap (fun n => traverse dc 0 n (List.replicate dc none))
  if nodes.isEmpty && cfg.entityTypes.length != 0 then
    rows ++ (dataFor entityData (cfg.entityTypes.headD "")).map (fun e =>
      (List.replicate dc none).set 0 (some (fallbackNode e)))
  else rows

/-- The number of terminal branches of a join tree, as the specification
defines it: a branch terminates at a leaf or at the last configured
entity type; the count is the sum over all such terminal positions. -/
def terminalCount (dc : Nat) (depth : Nat) : Node → Nat
  | Node.node _ _ children =>
    if children.isEmpty || depth == dc - 1 then 1
    else (children.attach.map (fun c => terminalCount dc (depth + 1) c.1)).sum
termination_by n => sizeOf n
decreasing_by
  simp_wf
  have h := List.sizeOf_lt_of_mem c.2
  omega

/-- Height of a join tree (number of node levels on a longest path). -/
def Node.height : Node → Nat
  | Node.node _ _ children =>
    1 + (children.attach.map (fun c => Node.height c.1)).foldr max 0
termination_by n => sizeOf n
decreasing_by
  simp_wf
  have h := List.sizeOf_lt_of_mem c.2
  omega

/-- `List.flatMap` over an attached list, with the proofs discarded. -/
theorem attach_flatMap_eq {α β : Type} (l : List α) (f : α → List β) :
    l.attach.flatMap (fun c => f c.1) = l.flatMap f := by
  rw [List.flatMap_def, List.flatMap_def, List.attach_map_val]

/-- `List.map` over an attached list, with the proofs discarded. -/
theorem attach_map_eq {α β : Type} (l : List α) (f : α → β) :
    l.attach.map (fun c => f c.1) = l.map f :=
  List.attach_map_val l f

/-- A fold with `max` is bounded by any common bound of the elements. -/
theorem foldr_max_le_of_forall {l : List Nat} {b : Nat} (h : ∀ x ∈ l, x ≤ b) :
    l.foldr max 0 ≤ b := by
  induction l with
  | nil => simp
  | cons a t ih =>
    simp only [List.foldr_cons]
    exact Nat.max_le.mpr ⟨h a (by simp), ih (fun x hx => h x (by simp [hx]))⟩

/-- `buildNode` stores the given record unchanged in the produced node. -/
theorem entity_buildNode (entityData : List (String × List JRecord))
    (etypes : List String) (rels : List Relationship) (r : JRecord) :
    (buildNode entityData etypes rels r).entity = r := by
  cases rels <;> rfl

/-- Unfolding equation of `traverse` with the `attach` scaffolding removed. -/
theorem traverse_node (dc depth : Nat) (et : Option String) (e : JRecord)
    (children : List Node) (row : List (Option Node)) :
    traverse dc depth (.node et e children) row =
      if children.isEmpty || depth == dc - 1 then
        [row.set depth (some (.node et e children))]
      else
        children.flatMap (fun c =>
          traverse dc (depth + 1) c (row.set depth (some (.node et e children)))) := by
  rw [traverse]
  by_cases h : children.isEmpty || depth == dc - 1
  · simp [h]
  · simp only [h, if_false, Bool.false_eq_true]
    exact attach_flatMap_eq children (fun c =>
      traverse dc (depth + 1) c (row.set depth (some (.node et e children))))

/-- Unfolding equation of `terminalCount` with the `attach` scaffolding
removed. -/
theorem terminalCount_node (dc depth : Nat) (et : Option String) (e : JRecord)
    (children : List Node) :
    terminalCount dc depth (.node et e children) =
      if children.isEmpty || depth == dc - 1 then 1
      else (children.map (terminalCount dc (depth + 1))).sum := by
  rw [terminalCount]
  by_cases h : children.isEmpty || depth == dc - 1
  · simp [h]
  · simp only [h, if_false, Bool.false_eq_true]
    rw [attach_map_eq]

/-- Unfolding equation of `Node.height` with the `attach` scaffolding
removed. -/
theorem height_node (et : Option String) (e : JRecord) (children : List Node) :
    Node.height (.node et e children) = 1 + (children.map Node.height).foldr max 0 := by
  rw [Node.height, attach_map_eq]

/-- `traverse` emits exactly one row per terminal branch. -/
theorem traverse_length_eq (dc : Nat) :
    ∀ (depth : Nat) (n : Node) (row : List (Option Node)),
      (traverse dc depth n row).length = terminalCount dc depth n
  | depth, .node et e children, row => by
    rw [traverse_node, terminalCount_node]
    by_cases h : children.isEmpty || depth == dc - 1
    · simp [h]
    · simp only [h, if_false, Bool.false_eq_true, List.length_flatMap]
      congr 1
      apply List.map_congr_left
      intro c hc
      exact traverse_length_eq dc (depth + 1) c _
termination_by _ n _ => sizeOf n
decreasing_by
  simp_wf
  have h := List.sizeOf_lt_of_mem hc
  omega

/-- Every row emitted by `traverse` has the width of the seed row. -/
theorem traverse_row_length (dc : Nat) :
    ∀ (depth : Nat) (n : Node) (row r : List (Option Node)),
      r ∈ traverse dc depth n row → r.length = row.length
  | depth, .node et e children, row, r => by
    intro h
    rw [traverse_node] at h
    by_cases hc : children.isEmpty || depth == dc - 1
    · simp only [hc, if_true] at h
      simp only [List.mem_singleton] at h
      subst h
      exact List.length_set row depth _
    · simp only [hc, if_false, Bool.false_eq_true, List.mem_flatMap] at h
      obtain ⟨c, hcm, hr⟩ := h
      have hrec := traverse_row_length dc (depth + 1) c (row.set depth (some (.node et e children))) r hr
      rw [hrec, List.length_set]
termination_by _ n _ _ => sizeOf n
decreasing_by
  simp_wf
  have h := List.sizeOf_lt_of_mem hcm
  omega

/-- C1: in `buildNode`, a node built from record `r` at a depth that still
has a configured relationship `rel` has as children exactly the records of
`entityData[rel.to]` whose join-key value matches `r`'s join-key value
under `valuesMatch`; `valuesMatch` is strict equality with no type
coercion (the string `"1"` and the number `1` do not match), and a
`null`/missing (`undefined`) join-key value on either side never
matches. -/
theorem joinChildren_strict_equality :
    (∀ (entityData : List (String × List JRecord)) (etypes : List String)
        (rel : Relationship) (rest : List Relationship) (r : JRecord),
      (buildNode entityData etypes (rel :: rest) r).children.map Node.entity
        = (dataFor entityData rel.to_).filter (fun c =>
            valuesMatch (getRelationshipValue r rel.fromField rel.fromLocation)
              (getRelationshipValue c rel.toField rel.toLocation)))
    ∧ (∀ p c : JValue,
        valuesMatch p c = true ↔ p.isPresent = true ∧ c.isPresent = true ∧ p = c)
    ∧ valuesMatch (.vStr "1") (.vNum 1) = false := by
  refine ⟨?_, ?_, by decide⟩
  · intro entityData etypes rel rest r
    show (((dataFor entityData rel.to_).filter _).map
        (fun child => buildNode entityData etypes.tail rest child)).map Node.entity = _
    rw [List.map_map]
    have hcomp : (Node.entity ∘ fun child => buildNode entityData etypes.tail rest child) = id := by
      funext a
      exact entity_buildNode entityData etypes.tail rest a
    rw [hcomp, List.map_id]
  · intro p c
    cases p <;> cases c <;>
      simp [valuesMatch, JValue.isPresent]

/-- The height of any tree produced by `buildNode` is bounded by the
number of remaining relationships plus one, whatever the data. -/
theorem buildNode_height_le (entityData : List (String × List JRecord)) :
    ∀ (etypes : List String) (rels : List Relationship) (r : JRecord),
      (buildNode entityData etypes rels r).height ≤ rels.length + 1
  | etypes, [], r => by
    show (Node.node etypes.head? r []).height ≤ 0 + 1
    rw [height_node]
    simp
  | etypes, rel :: rest, r => by
    show (Node.node etypes.head? r (((dataFor entityData rel.to_).filter _).map
      (fun child => buildNode entityData etypes.tail rest child))).height ≤ _
    rw [height_node, List.map_map]
    have hbound : ∀ x ∈ ((dataFor entityData rel.to_).filter
        (fun child => valuesMatch (getRelationshipValue r rel.fromField rel.fromLocation)
          (getRelationshipValue child rel.toField rel.toLocation))).map
        (Node.height ∘ fun child => buildNode entityData etypes.tail rest child),
        x ≤ rest.length + 1 := by
      intro x hx
      obtain ⟨c, _, hxc⟩ := List.mem_map.mp hx
      rw [← hxc]
      exact buildNode_height_le entityData etypes.tail rest c
    have := foldr_max_le_of_forall hbound
    simp only [List.length_cons]
    omega

/-- C10: `buildNode` is total (it is a Lean function) and the height of
every tree it produces is bounded by the number of configured
relationships plus one, for every data set — including data in which
records join to themselves or form cycles across entity types; the same
bound holds for every root produced by `buildNodes`. -/
theorem buildNode_depth_bounded :
    (∀ (entityData : List (String × List JRecord)) (etypes : List String)
        (rels : List Relationship) (r : JRecord),
      (buildNode entityData etypes rels r).height ≤ rels.length + 1)
    ∧ (∀ (cfg : RendererConfig) (entityData : List (String × List JRecord)) (n : Node),
        n ∈ buildNodes cfg entityData → n.height ≤ cfg.relationships.length + 1) := by
  constructor
  · exact fun entityData => buildNode_height_le entityData
  · intro cfg entityData n hn
    unfold buildNodes at hn
    match hE : cfg.entityTypes with
    | [] => rw [hE] at hn; simp at hn
    | e0 :: ts =>
      rw [hE] at hn
      obtain ⟨r, _, hrn⟩ := List.mem_map.mp hn
      rw [← hrn]
      exact buildNode_height_le entityData _ _ r

/-- Witness for C10 at a concrete input: a schema chain of one entity type
with no relationships and one record. -/
theorem buildNode_depth_bounded_witness :
    (Node.node (some "A") ⟨[("id", .vNum 1)], none, none, none⟩ []
        ∈ buildNodes ⟨["A"], []⟩ [("A", [⟨[("id", .vNum 1)], none, none, none⟩])])
    ∧ (Node.node (some "A") ⟨[("id", .vNum 1)], none, none, none⟩ []).height
        ≤ (RendererConfig.mk ["A"] []).relationships.length + 1 :=
  ⟨List.Mem.head _,
    buildNode_depth_bounded.2 ⟨["A"], []⟩
      [("A", [⟨[("id", .vNum 1)], none, none, none⟩])]
      (Node.node (some "A") ⟨[("id", .vNum 1)], none, none, none⟩ [])
      (List.Mem.head _)⟩

/-- C2: `collectRows` (the flatten step) emits exactly one row per
terminal branch of the tree produced by `buildNodes` — a branch
terminating at a leaf or at the last configured entity type — and every
emitted row has length equal to the number of configured entity types
(stated as: the list of row lengths is constantly that count). -/
theorem collectRows_row_count_and_width (cfg : RendererConfig)
    (entityData : List (String × List JRecord)) :
    (collectRows cfg entityData).length
      = ((buildNodes cfg entityData).map (terminalCount (depthCount cfg) 0)).sum
    ∧ (collectRows cfg entityData).map List.length
      = List.replicate (collectRows cfg entityData).length cfg.entityTypes.length := by
  have main : ∀ rows, rows = collectRows cfg entityData →
      rows.length = ((buildNodes cfg entityData).map (terminalCount (depthCount cfg) 0)).sum
      ∧ ∀ row ∈ rows, row.length = cfg.entityTypes.length := by
    intro rows hrows
    match hE : cfg.entityTypes with
    | [] =>
      have hb : buildNodes cfg entityData = [] := by
        unfold buildNodes; rw [hE]
      have hc : collectRows cfg entityData = [] := by
        unfold collectRows
        rw [hb, hE]
        simp
      rw [hrows, hc, hb]
      simp
    | e0 :: ts =>
      have hb : buildNodes cfg entityData
          = (dataFor entityData e0).map
              (fun root => buildNode entityData cfg.entityTypes cfg.relationships root) := by
        unfold buildNodes; rw [hE]
      have hdc : depthCount cfg = ts.length + 1 := by
        unfold depthCount; rw [hE]; simp
      by_cases hl : dataFor entityData e0 = []
      · have hbnil : buildNodes cfg entityData = [] := by rw [hb, hl]; rfl
        have hc : collectRows cfg entityData = [] := by
          unfold collectRows
          rw [hbnil, hE]
          simp [hl]
        rw [hrows, hc, hbnil]
        simp
      · have hbne : ¬ (buildNodes cfg entityData).isEmpty = true := by
          rw [hb, List.isEmpty_eq_true, List.map_eq_nil_iff]
          exact hl
        have hc : collectRows cfg entityData
            = (buildNodes cfg entityData).flatMap (fun n =>
                traverse (depthCount cfg) 0 n (List.replicate (depthCount cfg) none)) := by
          unfold collectRows
          simp only [Bool.and_eq_true, Bool.not_eq_true]
          rw [if_neg]
          intro hcontra
          exact hbne hcontra.1
        constructor
        · rw [hrows, hc, List.length_flatMap]
          congr 1
          apply List.map_congr_left
          intro n _
          exact traverse_length_eq (depthCount cfg) 0 n _
        · intro row hrow
          rw [hrows, hc] at hrow
          obtain ⟨n, _, hmem⟩ := List.mem_flatMap.mp hrow
          have := traverse_row_length (depthCount cfg) 0 n _ row hmem
          rw [this, List.length_replicate, hdc]
          simp [hE]
  obtain ⟨h1, h2⟩ := main (collectRows cfg entityData) rfl
  refine ⟨h1, ?_⟩
  rw [List.eq_replicate_iff]
  refine ⟨by rw [List.length_map], ?_⟩
  intro b hb
  obtain ⟨row, hrow, hlen⟩ := List.mem_map.mp hb
  rw [← hlen]
  exact h2 row hrow

/-- C5: when the root entity type has records but the first relationship
yields zero matches overall, `collectRows` emits exactly one row per root
record, with the root node in column zero and `null` in every deeper
column; the row set is nonempty. -/
theorem collectRows_unmatched_roots (cfg : RendererConfig)
    (entityData : List (String × List JRecord)) (e0 : String) (ts : List String)
    (rel : Relationship) (restR : List Relationship)
    (hT : cfg.entityTypes = e0 :: ts)
    (hR : cfg.relationships = rel :: restR)
    (hroots : dataFor entityData e0 ≠ [])
    (hnomatch : ∀ r ∈ dataFor entityData e0, ∀ c ∈ dataFor entityData rel.to_,
      valuesMatch (getRelationshipValue r rel.fromField rel.fromLocation)
        (getRelationshipValue c rel.toField rel.toLocation) = false) :
    collectRows cfg entityData
      = (dataFor entityData e0).map (fun r =>
          some (Node.node (some e0) r []) :: List.replicate ts.length none)
    ∧ collectRows cfg entityData ≠ [] := by
  have hnode : ∀ r ∈ dataFor entityData e0,
      buildNode entityData (e0 :: ts) cfg.relationships r
        = Node.node (some e0) r [] := by
    intro r hr
    rw [hR]
    show Node.node (e0 :: ts).head? r _ = _
    have hfil : (dataFor entityData rel.to_).filter (fun c =>
        valuesMatch (getRelationshipValue r rel.fromField rel.fromLocation)
          (getRelationshipValue c rel.toField rel.toLocation)) = [] := by
      rw [List.filter_eq_nil_iff]
      intro c hc
      rw [hnomatch r hr c hc]
      simp
    rw [hfil]
    rfl
  have hb : buildNodes cfg entityData
      = (dataFor entityData e0).map (fun r => Node.node (some e0) r []) := by
    unfold buildNodes
    rw [hT]
    exact List.map_congr_left hnode
  have hdc : depthCount cfg = ts.length + 1 := by
    unfold depthCount; rw [hT]; simp
  have hbne : ¬ (buildNodes cfg entityData).isEmpty = true := by
    rw [hb, List.isEmpty_eq_true, List.map_eq_nil_iff]
    exact hroots
  have hc : collectRows cfg entityData
      = (buildNodes cfg entityData).flatMap (fun n =>
          traverse (depthCount cfg) 0 n (List.replicate (depthCount cfg) none)) := by
    unfold collectRows
    simp only [Bool.and_eq_true, Bool.not_eq_true]
    rw [if_neg]
    intro hcontra
    exact hbne hcontra.1
  have htrav : ∀ r : JRecord,
      traverse (depthCount cfg) 0 (Node.node (some e0) r [])
          (List.replicate (depthCount cfg) none)
        = [some (Node.node (some e0) r []) :: List.replicate ts.length none] := by
    intro r
    rw [traverse_node]
    simp only [List.isEmpty_nil, Bool.true_or, if_true]
    rw [hdc, List.replicate_succ, List.set_cons_zero]
  have heq : collectRows cfg entityData
      = (dataFor entityData e0).map (fun r =>
          some (Node.node (some e0) r []) :: List.replicate ts.length none) := by
    rw [hc, hb, List.flatMap_map]
    rw [List.flatMap_def]
    rw [List.map_congr_left (g := fun r =>
      [some (Node.node (some e0) r []) :: List.replicate ts.length none])
      (fun r _ => htrav r)]
    rw [← List.flatMap_def]
    exact Eq.symm (List.map_eq_flatMap _ _)
  refine ⟨heq, ?_⟩
  rw [heq]
  intro hnil
  exact hroots (List.map_eq_nil_iff.mp hnil)

/-- Witness for C5 at a concrete input: one root record of type `A`
joined on `A.id = B.aId` against one `B` record with a non-matching key;
`collectRows` is nonempty. -/
theorem collectRows_unmatched_roots_witness :
    (dataFor [("A", [JRecord.mk [("id", JValue.vNum 1)] none none none]),
        ("B", [JRecord.mk [("aId", JValue.vNum 2)] none none none])] "A" ≠ []
      ∧ ∀ r ∈ dataFor [("A", [JRecord.mk [("id", JValue.vNum 1)] none none none]),
          ("B", [JRecord.mk [("aId", JValue.vNum 2)] none none none])] "A",
        ∀ c ∈ dataFor [("A", [JRecord.mk [("id", JValue.vNum 1)] none none none]),
          ("B", [JRecord.mk [("aId", JValue.vNum 2)] none none none])] "B",
          valuesMatch (getRelationshipValue r "id" "basic")
            (getRelationshipValue c "aId" "basic") = false)
    ∧ collectRows (RendererConfig.mk ["A", "B"]
          [Relationship.mk "A" "B" "id" "aId" "basic" "basic"])
        [("A", [JRecord.mk [("id", JValue.vNum 1)] none none none]),
         ("B", [JRecord.mk [("aId", JValue.vNum 2)] none none none])] ≠ [] :=
  ⟨⟨by decide, by decide⟩,
    (collectRows_unmatched_roots
      (RendererConfig.mk ["A", "B"] [Relationship.mk "A" "B" "id" "aId" "basic" "basic"])
      [("A", [JRecord.mk [("id", JValue.vNum 1)] none none none]),
       ("B", [JRecord.mk [("aId", JValue.vNum 2)] none none none])]
      "A" ["B"] (Relationship.mk "A" "B" "id" "aId" "basic" "basic") []
      rfl rfl (by decide) (by decide)).2⟩

/-- The per-entity-type field lists of a schema entry
(`entity.fields`).  Absent sub-lists (`entity.fields.basic || []` etc.)
are modelled as empty lists, which the source's `|| []` guards make
observationally identical. -/
structure EntityFields where
  basic : List String := []
  tags : List String := []
  properties : List String := []
  namespaces : List (String × List String) := []
deriving DecidableEq, Repr

/-- A schema entity type descriptor; `fields` is optional (the source
guards with `entity?.fields`). -/
structure EntityType where
  name : String
  fields : Option EntityFields := none
deriving DecidableEq, Repr

/-- The loaded schema. -/
structure Schema where
  entityTypes : List EntityType
deriving DecidableEq, Repr

/-- `getAllFields(entity)` (src/builder.js:757-783): the full field list
of an entity type with each field's location, in enumeration order
basic → tags → properties → namespaces (namespace entries in insertion
order). -/
def getAllFields (entity : EntityType) : List (String × String) :=
  match entity.fields with
  | none => []
  | some f =>
    f.basic.map (fun n => (n, "basic"))
      ++ f.tags.map (fun n => (n, "tag"))
      ++ f.properties.map (fun n => (n, "property"))
      ++ f.namespaces.flatMap (fun ns => ns.2.map (fun p => (p, "namespace:" ++ ns.1)))

/-- `resolveFieldLocation(entityTypeName, fieldName)`
(src/builder.js:785-802): linear scan basic → tags → properties →
namespaces, silently defaulting to `'basic'` when the field is not
found. -/
def resolveFieldLocation (schema : Schema) (entityTypeName fieldName : String) : String :=
  match schema.entityTypes.find? (fun et => et.name == entityTypeName) with
  | none => "basic"
  | some entity =>
    match entity.fields with
    | none => "basic"
    | some f =>
      if f.basic.contains fieldName then "basic"
      else if f.tags.contains fieldName then "tag"
      else if f.properties.contains fieldName then "property"
      else
        match f.namespaces.find? (fun ns => ns.2.contains fieldName) with
        | some ns => "namespace:" ++ ns.1
        | none => "basic"

/-- A common field produced by `getCommonFields`: the shared name with
its location on each side. -/
structure CommonField where
  name : String
  fromLocation : String
  toLocation : String
deriving DecidableEq, Repr

/-- `getCommonFields(type1, type2)` (src/builder.js:804-832): the fields
of `type1` (in `type1`'s enumeration order, duplicates included) whose
name also occurs in `type2`'s field list; the `to`-side location is that
of the first occurrence in `type2`'s enumeration (the source's `map2`
keeps only the first location per name). -/
def getCommonFields (schema : Schema) (type1 type2 : String) : List CommonField :=
  match schema.entityTypes.find? (fun et => et.name == type1),
      schema.entityTypes.find? (fun et => et.name == type2) with
  | some e1, some e2 =>
    if e1.fields.isNone || e2.fields.isNone then []
    else
      let fields2 := getAllFields e2
      (getAllFields e1).filterMap (fun f =>
        match fields2.find? (fun g => g.1 == f.1) with
        | some g => some ⟨f.1, f.2, g.2⟩
        | none => none)
  | _, _ => []

/-- Whether `p` occurs as a contiguous segment anywhere in `l`. -/
def hasSeg (l p : List Char) : Bool :=
  leadingSeg p l ||
    match l with
    | [] => false
    | _ :: ls => hasSeg ls p

/-- JS `String.prototype.includes`: substring containment. -/
def strIncludes (s pat : String) : Bool :=
  hasSeg s.toList pat.toList

/-- JS `String.prototype.toLowerCase` (the names at issue are ASCII),
implemented over the character list so that it evaluates by kernel
reduction (`String.toLower`'s `mapAux` does not). -/
def jsToLower (s : String) : String :=
  String.mk (s.data.map Char.toLower)

/-- The predicate of the source's single `find` call in
`autoDetectRelationships` (src/builder.js:737-741): the lowercased name
contains `"id"`, `"guid"` or `"name"`, as one disjunction. -/
def preferredFieldPred (f : CommonField) : Bool :=
  strIncludes (jsToLower f.name) "id" || strIncludes (jsToLower f.name) "guid"
    || strIncludes (jsToLower f.name) "name"

/-- `autoDetectRelationships()` (src/builder.js:728-755) over an explicit
schema and selection: for each adjacent pair of selected entity types
with at least one common field, pick
`commonFields.find(pred) || commonFields[0]` as the join key.  The
`preferredFieldMeta.fromLocation || resolveFieldLocation(...)` fallbacks
fire only on an empty-string location (JS falsiness). -/
def autoDetectRelationships (schema : Schema) (selectedEntityTypes : List String) :
    List Relationship :=
  (selectedEntityTypes.zip selectedEntityTypes.tail).filterMap (fun p =>
    match getCommonFields schema p.1 p.2 with
    | [] => none
    | c0 :: cs =>
      let preferred := (((c0 :: cs).find? preferredFieldPred)).getD c0
      some
        { from_ := p.1
          to_ := p.2
          fromField := preferred.name
          toField := preferred.name
          fromLocation :=
            if preferred.fromLocation == "" then resolveFieldLocation schema p.1 preferred.name
            else preferred.fromLocation
          toLocation :=
            if preferred.toLocation == "" then resolveFieldLocation schema p.2 preferred.name
            else preferred.toLocation })

/-- Modelled from the spec's words (§4.1), for comparison with the
source: the *ordered* tie-break — any common field containing `"id"`,
else any containing `"guid"`, else any containing `"name"`, else the
first common field in enumeration order. -/
def specOrderedTieBreak (commonFields : List CommonField) : Option CommonField :=
  match commonFields with
  | [] => none
  | c0 :: _ =>
    some (((((commonFields.find? (fun f => strIncludes (jsToLower f.name) "id")).orElse
      (fun _ => commonFields.find? (fun f => strIncludes (jsToLower f.name) "guid"))).orElse
      (fun _ => commonFields.find? (fun f => strIncludes (jsToLower f.name) "name")))).getD c0)

/-- Counterexample to C3 as stated: with common fields
`["username", "recordId"]` (in the from-type's enumeration order), the
source's single-pass disjunctive `find` chooses `"username"` (it contains
`"name"`), while the spec's ordered tie-break (prefer `"id"` first)
chooses `"recordId"`; so the chosen join key does not follow the ordered
tie-break. -/
theorem autoDetect_tiebreak_counterexample :
    (autoDetectRelationships
        ⟨[⟨"A", some ⟨["username", "recordId"], [], [], []⟩⟩,
          ⟨"B", some ⟨["username", "recordId"], [], [], []⟩⟩]⟩
        ["A", "B"]).map (fun r => r.fromField) = ["username"]
    ∧ (specOrderedTieBreak (getCommonFields
        ⟨[⟨"A", some ⟨["username", "recordId"], [], [], []⟩⟩,
          ⟨"B", some ⟨["username", "recordId"], [], [], []⟩⟩]⟩
        "A" "B")).map (fun c => c.name) = some "recordId"
    ∧ ¬ (∀ rel ∈ autoDetectRelationships
          ⟨[⟨"A", some ⟨["username", "recordId"], [], [], []⟩⟩,
            ⟨"B", some ⟨["username", "recordId"], [], [], []⟩⟩]⟩
          ["A", "B"],
        (specOrderedTieBreak (getCommonFields
            ⟨[⟨"A", some ⟨["username", "recordId"], [], [], []⟩⟩,
              ⟨"B", some ⟨["username", "recordId"], [], [], []⟩⟩]⟩
            rel.from_ rel.to_)).map (fun c => c.name) = some rel.fromField) := by
  decide

/-- C3 as amended: when auto-detect finds at least one common field, the
chosen join key is the first common field (in the from-type's field
enumeration order) whose name case-insensitively contains `"id"`,
`"guid"` or `"name"` — a single pass with a disjunctive test, not the
ordered id-then-guid-then-name tie-break — and otherwise the first common
field; the same field name is used on both sides. -/
theorem autoDetect_single_pass_choice (schema : Schema) (ets : List String)
    (rel : Relationship) (h : rel ∈ autoDetectRelationships schema ets) :
    ∃ c0 cs, getCommonFields schema rel.from_ rel.to_ = c0 :: cs
      ∧ rel.fromField = (((c0 :: cs).find? preferredFieldPred).getD c0).name
      ∧ rel.toField = rel.fromField := by
  unfold autoDetectRelationships at h
  obtain ⟨p, hp, hsome⟩ := List.mem_filterMap.mp h
  match hcf : getCommonFields schema p.1 p.2 with
  | [] =>
    rw [hcf] at hsome
    simp at hsome
  | c0 :: cs =>
    rw [hcf] at hsome
    simp only [Option.some.injEq] at hsome
    subst hsome
    exact ⟨c0, cs, hcf, rfl, rfl⟩

/-- Witness for the amended C3 at a concrete input. -/
theorem autoDetect_single_pass_choice_witness :
    (Relationship.mk "A" "B" "username" "username" "basic" "basic"
        ∈ autoDetectRelationships
          ⟨[⟨"A", some ⟨["username", "recordId"], [], [], []⟩⟩,
            ⟨"B", some ⟨["username", "recordId"], [], [], []⟩⟩]⟩
          ["A", "B"])
    ∧ ∃ c0 cs, getCommonFields
          ⟨[⟨"A", some ⟨["username", "recordId"], [], [], []⟩⟩,
            ⟨"B", some ⟨["username", "recordId"], [], [], []⟩⟩]⟩
          (Relationship.mk "A" "B" "username" "username" "basic" "basic").from_
          (Relationship.mk "A" "B" "username" "username" "basic" "basic").to_
        = c0 :: cs
      ∧ (Relationship.mk "A" "B" "username" "username" "basic" "basic").fromField
          = (((c0 :: cs).find? preferredFieldPred).getD c0).name
      ∧ (Relationship.mk "A" "B" "username" "username" "basic" "basic").toField
          = (Relationship.mk "A" "B" "username" "username" "basic" "basic").fromField :=
  ⟨by decide,
    autoDetect_single_pass_choice
      ⟨[⟨"A", some ⟨["username", "recordId"], [], [], []⟩⟩,
        ⟨"B", some ⟨["username", "recordId"], [], [], []⟩⟩]⟩
      ["A", "B"]
      (Relationship.mk "A" "B" "username" "username" "basic" "basic")
      (by decide)⟩

/-- The per-character replacement of `escapeHTML`'s regex
(src/builder.js:208-218). -/
def escapeChar (c : Char) : String :=
  if c == '<' then "&lt;"
  else if c == '>' then "&gt;"
  else if c == '&' then "&amp;"
  else if c == '"' then "&quot;"
  else if c == '\'' then "&#39;"
  else String.mk [c]

/-- `escapeHTML(str)` (src/builder.js:208-218): `if (!str) return ''`
(falsy = empty string here), then replace each of `< > & " '` with its
entity. -/
def escapeHTML (str : String) : String :=
  if str == "" then ""
  else String.mk (str.data.flatMap (fun c => (escapeChar c).data))

/-- Decoder of the five entities emitted by `escapeHTML`, used to state
that escaping is lossless (every escaped label decodes back to the
original). -/
def unescapeHTML : List Char → List Char
  | [] => []
  | c :: rest =>
    if c == '&' && leadingSeg ['l', 't', ';'] rest then '<' :: unescapeHTML (rest.drop 3)
    else if c == '&' && leadingSeg ['g', 't', ';'] rest then '>' :: unescapeHTML (rest.drop 3)
    else if c == '&' && leadingSeg ['a', 'm', 'p', ';'] rest then
      '&' :: unescapeHTML (rest.drop 4)
    else if c == '&' && leadingSeg ['q', 'u', 'o', 't', ';'] rest then
      '"' :: unescapeHTML (rest.drop 5)
    else if c == '&' && leadingSeg ['#', '3', '9', ';'] rest then
      '\'' :: unescapeHTML (rest.drop 4)
    else c :: unescapeHTML rest
termination_by l => l.length
decreasing_by all_goals simp [List.length_drop] <;> omega

/-- JS `String.prototype.trim` (ASCII whitespace; the builder's inputs
are ASCII), implemented over the character list. -/
def jsTrim (s : String) : String :=
  String.mk (((s.data.dropWhile Char.isWhitespace).reverse.dropWhile Char.isWhitespace).reverse)

/-- `sanitizeInput(input, maxLength)` (src/builder.js:198-201):
falsy input gives `''`; otherwise trim then `slice(0, maxLength)`. -/
def sanitizeInput (input : String) (maxLength : Nat) : String :=
  if input == "" then ""
  else String.mk ((jsTrim input).data.take maxLength)

/-- A hexadecimal digit (lowercase), for JSON `\uXXXX` escapes. -/
def hexDigit (n : Nat) : Char :=
  if n < 10 then Char.ofNat (48 + n) else Char.ofNat (87 + n)

/-- Four-digit hexadecimal rendering, for JSON `\uXXXX` escapes. -/
def hex4 (n : Nat) : String :=
  String.mk [hexDigit ((n / 4096) % 16), hexDigit ((n / 256) % 16),
    hexDigit ((n / 16) % 16), hexDigit (n % 16)]

/-- The per-character escaping of `JSON.stringify` on strings. -/
def jsonEscapeChar (c : Char) : String :=
  if c == '"' then "\\\""
  else if c == '\\' then "\\\\"
  else if c == '\n' then "\\n"
  else if c == '\r' then "\\r"
  else if c == '\t' then "\\t"
  else if c == '\x08' then "\\b"
  else if c == '\x0c' then "\\f"
  else if c.toNat < 32 then "\\u" ++ hex4 c.toNat
  else String.mk [c]

/-- `JSON.stringify` of a string value. -/
def jsonStringify (s : String) : String :=
  "\"" ++ String.mk (s.data.flatMap (fun c => (jsonEscapeChar c).data)) ++ "\""

/-- `entityType.replace(/\./g, '_')`. -/
def jsReplaceDots (s : String) : String :=
  String.mk (s.data.map (fun c => if c == '.' then '_' else c))

/-- `Array.prototype.join` with a separator. -/
def joinSep (sep : String) : List String → String
  | [] => ""
  | [x] => x
  | x :: xs => x ++ sep ++ joinSep sep xs

/-- JS `Set`-based deduplication (`[...new Set(l)]`): first occurrence
kept, insertion order preserved. -/
def dedupStr (l : List String) : List String :=
  l.foldl (fun acc x => if acc.contains x then acc else acc ++ [x]) []

/-- Splitting at `/\r?\n/` (src/builder.js:1572): split at every `'\n'`,
then drop the single `'\r'` the regex would have consumed before each
`'\n'` — i.e. one trailing `'\r'` of every piece except the last. -/
def stripCR (l : List Char) : List Char :=
  match l.getLast? with
  | some '\r' => l.dropLast
  | _ => l

/-- All pieces but the last get one trailing `'\r'` removed. -/
def stripCRs : List (List Char) → List (List Char)
  | [] => []
  | [l] => [l]
  | l :: rest => stripCR l :: stripCRs rest

/-- `text.split(/\r?\n/)`. -/
def jsSplitLines (text : String) : List String :=
  (stripCRs (splitOnChar '\n' text.data)).map String.mk

/-- The heading test `line.match(/^#\s*(.+)$/)` of `parseOverrideString`:
the regex matches exactly the lines that start with `'#'` and have at
least one further character (`\s*` backtracks as needed). -/
def isHeaderLine (line : String) : Bool :=
  match line.data with
  | '#' :: _ :: _ => true
  | _ => false

/-- The heading name `header[1].trim()`: since `.trim()` follows, the
amount of whitespace `\s*` consumed is immaterial and the name is the
trimmed remainder after `'#'`. -/
def headerName (line : String) : String :=
  jsTrim (String.mk line.data.tail)

/-- JS object property assignment `obj[k] = v` on a string-keyed object
modelled as an insertion-ordered association list: replace in place if
the key exists, else append. -/
def objSet (m : List (String × String)) (k v : String) : List (String × String) :=
  if m.any (fun kv => kv.1 == k) then
    m.map (fun kv => if kv.1 == k then (k, v) else kv)
  else m ++ [(k, v)]

/-- The line loop of `parseOverrideString` (src/builder.js:1572-1587),
including the final flush.  JS quirk kept: a section is stored only when
`current && buffer.length` — an *empty-string* heading name is falsy, so
its buffered text is dropped. -/
def parseLines : List String → Option String → List String → List (String × String) →
    List (String × String)
  | [], current, buffer, sections =>
    (match current with
     | some c => if c != "" && buffer.length > 0
         then objSet sections c (jsTrim (joinSep "\n" buffer)) else sections
     | none => sections)
  | line :: rest, current, buffer, sections =>
    if isHeaderLine line then
      let sections1 :=
        match current with
        | some c => if c != "" && buffer.length > 0
            then objSet sections c (jsTrim (joinSep "\n" buffer)) else sections
        | none => sections
      parseLines rest (some (headerName line)) [] sections1
    else
      parseLines rest current (buffer ++ [line]) sections

/-- `parseOverrideString(text)` (src/builder.js:1561-1594), over an
explicit `selectedEntityTypes`.  Returns `none` for blank text; a
one-entry map keyed by the single selected entity type when exactly one
is selected; otherwise the `# <entityType>` sections, falling back to a
`__default` entry when no heading was found. -/
def parseOverrideString (selectedEntityTypes : List String) (text : String) :
    Option (List (String × String)) :=
  let trimmed := jsTrim text
  if trimmed == "" then none
  else if selectedEntityTypes.length == 1 then
    some [(selectedEntityTypes.headD "", trimmed)]
  else
    let sections := parseLines (jsSplitLines trimmed) none [] []
    if sections.isEmpty then some [("__default", trimmed)]
    else some sections

/-- `map[k]` followed by JS truthiness (`|| …` falls through on an
empty-string value). -/
def objGetTruthy (m : List (String × String)) (k : String) : Option String :=
  match m.find? (fun kv => kv.1 == k) with
  | some kv => if kv.2 != "" then some kv.2 else none
  | none => none

/-- `getQueryOverrideForEntity(entityType)` (src/builder.js:1596-1600)
composed with `getParsedOverrideMap` (the memo cache is pure):
`map[entityType] || map.__default || null`. -/
def getQueryOverrideForEntity (selectedEntityTypes : List String)
    (customQueryOverride : String) (entityType : String) : Option String :=
  match (if jsTrim customQueryOverride == "" then none
         else parseOverrideString selectedEntityTypes customQueryOverride) with
  | none => none
  | some m =>
    match objGetTruthy m entityType with
    | some v => some v
    | none => objGetTruthy m "__default"

/-- A selected field (`{ name, location, zone, showLabel }`); the
relationship-join entries synthesized by `getFieldsNeededForEntity` carry
no `zone` (JS `undefined`), modelled as `""`. -/
structure SelectedField where
  name : String
  location : String
  zone : String := "detail"
  showLabel : Bool := true
deriving DecidableEq, Repr

/-- An aggregate statistic `{ id, operation, field, label }`
(src/builder.js:3133-3138); `id` is `Date.now()` at creation time. -/
structure AggregateStat where
  id : Nat
  operation : String
  field : String
  label : String
deriving DecidableEq, Repr

/-- The builder's module-level state read by the compiler: `schema`,
`selectedEntityTypes`, `relationships`, `selectedFields`,
`aggregateStats` and `customQueryOverride` (src/builder.js:28-44),
as an explicit value. -/
structure BuilderState where
  schema : Schema
  selectedEntityTypes : List String
  relationships : List Relationship
  selectedFields : List (String × List SelectedField)
  aggregateStats : List (String × List AggregateStat)
  customQueryOverride : String
deriving Repr

/-- The impure browser environment amenities visible to the builder
script (the wall clock behind `Date.now()`): threaded explicitly so that
independence of the compiled output from them can be stated. -/
structure JsEnv where
  now : Nat
deriving DecidableEq, Repr

/-- A thrown JS error, by kind: a `ReferenceError` on an undeclared
identifier, a `TypeError` on a property access through `undefined`, or a
`ReportBuilderError` (message and machine-readable code). -/
inductive JsError where
  | referenceError : String → JsError
  | typeError : String → JsError
  | builderError : String → String → JsError
deriving DecidableEq, Repr

/-- Decidable equality of generation results, for concrete evaluation. -/
instance : DecidableEq (Except JsError String) := fun a b =>
  match a, b with
  | .ok x, .ok y =>
    if h : x = y then isTrue (by rw [h]) else isFalse (by intro hh; injection hh; contradiction)
  | .error x, .error y =>
    if h : x = y then isTrue (by rw [h]) else isFalse (by intro hh; injection hh; contradiction)
  | .ok _, .error _ => isFalse (by intro hh; cases hh)
  | .error _, .ok _ => isFalse (by intro hh; cases hh)

/-- `addAggregateStat(entityType)` (src/builder.js:3125-3143): the only
place a wall-clock value enters the configuration — the new stat's `id`
is `Date.now()`, fixed at configuration-build time. -/
def addAggregateStat (env : JsEnv) (st : BuilderState) (entityType : String) : BuilderState :=
  if entityType == "" then st
  else
    let stats := ((st.aggregateStats.find? (fun kv => kv.1 == entityType)).map
      (fun kv => kv.2)).getD []
    let stat : AggregateStat := ⟨env.now, "COUNT", "", ""⟩
    { st with aggregateStats :=
        if st.aggregateStats.any (fun kv => kv.1 == entityType) then
          st.aggregateStats.map (fun kv =>
            if kv.1 == entityType then (kv.1, stats ++ [stat]) else kv)
        else st.aggregateStats ++ [(entityType, [stat])] }

/-- One synthesized relationship-join field entry of
`getFieldsNeededForEntity` (src/builder.js:1191-1195): the location falls
back to `resolveFieldLocation` when the stored one is falsy. -/
def relFieldEntry (schema : Schema) (entityType name location : String) : SelectedField :=
  ⟨name, if location == "" then resolveFieldLocation schema entityType name else location,
    "", true⟩

/-- The duplicate check before pushing a synthesized entry
(src/builder.js:1196): same name *and* location. -/
def addIfAbsent (req : List SelectedField) (entry : SelectedField) : List SelectedField :=
  if req.any (fun f => f.name == entry.name && f.location == entry.location) then req
  else req ++ [entry]

/-- `getFieldsNeededForEntity(entityType)` (src/builder.js:1185-1213):
the selected fields plus, for every relationship touching the entity
type on either side with a non-empty field, a synthesized join-field
entry. -/
def getFieldsNeededForEntity (st : BuilderState) (entityType : String) : List SelectedField :=
  let selected := ((st.selectedFields.find? (fun kv => kv.1 == entityType)).map
    (fun kv => kv.2)).getD []
  st.relationships.foldl (fun required rel =>
    let required1 :=
      if rel.from_ == entityType && rel.fromField != "" then
        addIfAbsent required (relFieldEntry st.schema entityType rel.fromField rel.fromLocation)
      else required
    if rel.to_ == entityType && rel.toField != "" then
      addIfAbsent required1 (relFieldEntry st.schema entityType rel.toField rel.toLocation)
    else required1) selected

-- Verbatim text segments of the generator templates in src/builder.js
-- (JS template-literal escapes decoded), in source order within each
-- template; the interpolation points between consecutive segments are
-- filled in by the generator definitions that follow them.

def cssReportSeg1 : String :=
  "\n    body \x7b\n      margin: 0;\n      padding: 0;\n      background: #000;\n      font-family: \x27Inter\x27, -apple-system, BlinkMacSystemFont, sans-serif;\n      color: #e0e0e0;\n    \x7d\n\n    .header \x7b\n      background: #0f171c;\n      color: white;\n      padding: 20px 40px;\n      border-bottom: 2px solid #00d9ff;\n    \x7d\n\n    .header h1 \x7b\n      margin: 0;\n      font-size: 28px;\n      font-weight: 600;\n    \x7d\n\n    .header p \x7b\n      margin: 8px 0 0 0;\n      color: #9ca3af;\n    \x7d\n\n    #loading \x7b\n      background: #ffe9a2;\n      color: #000;\n      padding: 16px;\n      text-align: center;\n      font-weight: 500;\n    \x7d\n\n    .container \x7b\n      padding: 40px;\n      max-width: 1400px;\n      margin: 0 auto;\n    \x7d\n\n    .hierarchy-root \x7b\n      background: rgba(0, 217, 255, 0.1);\n      border: 1px solid #00d9ff;\n      border-radius: 12px;\n      padding: 24px;\n      margin-bottom: 24px;\n    \x7d\n\n    .hierarchy-level \x7b\n      margin-left: 24px;\n      margin-top: 16px;\n      padding-left: 20px;\n      border-left: 3px solid rgba(176, 132, 255, 0.5);\n    \x7d\n\n    .hierarchy-level h4 \x7b\n      color: #b084ff;\n      margin: 0 0 12px 0;\n      font-size: 16px;\n    \x7d\n\n    .entity-item \x7b\n      background: rgba(255, 255, 255, 0.03);\n      border: 1px solid rgba(255, 255, 255, 0.1);\n      border-radius: 6px;\n      padding: 12px;\n      margin-bottom: 12px;\n    \x7d\n\n    .entity-item strong \x7b\n      color: #00d9ff;\n      margin-right: 8px;\n    \x7d\n\n    .entity-section \x7b\n      margin-bottom: 40px;\n    \x7d\n\n    .entity-section h2 \x7b\n      color: #00d9ff;\n      border-bottom: 2px solid rgba(0, 217, 255, 0.3);\n      padding-bottom: 12px;\n      margin-bottom: 20px;\n    \x7d\n\n    .timeline \x7b\n      border-left: 2px dashed rgba(0, 217, 255, 0.4);\n      padding-left: 20px;\n      margin-left: 10px;\n    \x7d\n\n    .timeline-step \x7b\n      position: relative;\n      margin-bottom: 18px;\n    \x7d\n\n    .timeline-step::before \x7b\n      content: \x27\x27;\n      position: absolute;\n      left: -29px;\n      top: 6px;\n      width: 12px;\n      height: 12px;\n      border-radius: 50%;\n      background: #00d9ff;\n      box-shadow: 0 0 8px rgba(0, 217, 255, 0.7);\n    \x7d\n\n    .preview-card \x7b\n      border: 1px solid rgba(255, 255, 255, 0.08);\n      border-radius: 12px;\n      padding: 16px;\n      margin-bottom: 12px;\n      background: rgba(255, 255, 255, 0.04);\n    \x7d\n\n    .preview-card h4 \x7b\n      margin: 0 0 8px 0;\n      font-size: 14px;\n      color: #00d9ff;\n    \x7d\n\n    .preview-card \x7b\n      border: 1px solid rgba(255, 255, 255, 0.08);\n      border-radius: 12px;\n      padding: 16px;\n      margin-bottom: 12px;\n      background: rgba(255, 255, 255, 0.04);\n    \x7d\n\n    .preview-card h4 \x7b\n      margin: 0 0 8px 0;\n      font-size: 14px;\n      color: #00d9ff;\n    \x7d\n\n    .preview-card small \x7b\n      color: #9ca3af;\n    \x7d\n      "

def helperFnsSeg1 : String :=
  "\n    function getTagValue(tags, key) \x7b\n      if (!tags) return null;\n      const tag = tags.find(t => t.key === key);\n      return tag?.value;\n    \x7d\n\n    function getPropertyValue(properties, name) \x7b\n      if (!properties) return null;\n      const prop = properties.find(p => p.name === name);\n      return prop?.value;\n    \x7d\n\n    function getNamespaceProperty(entity, nsName, propName) \x7b\n      if (!entity.namespaces) return null;\n      const ns = entity.namespaces.find(n => n.name === nsName);\n      if (!ns?.properties) return null;\n      const prop = ns.properties.find(p => p.name === propName);\n      return prop?.value;\n    \x7d\n      "

def rendererClassSeg1 : String :=
  "\n    class ReportRenderer \x7b\n      constructor(config, entityData) \x7b\n        this.config = config || \x7b\x7d;\n        this.entityData = entityData || \x7b\x7d;\n        this.relationships = this.config.relationships || [];\n        this.entityTypes = this.config.entityTypes || [];\n        this.selectedFields = this.config.selectedFields || \x7b\x7d;\n      \x7d\n\n      renderHierarchy() \x7b\n        const nodes = this.buildNodes();\n        if (!nodes.length) \x7b\n          return \x27<div class=\"entity-item\">No matching data</div>\x27;\n        \x7d\n        return nodes.map(node => this.renderHierarchyNode(node, 0)).join(\x27\x27);\n      \x7d\n\n      renderHierarchyNode(node, depth) \x7b\n        const containerClass = depth === 0 ? \x27hierarchy-root\x27 : \x27hierarchy-level\x27;\n        const safeId = node.entityType.replace(/\\./g, \x27_\x27);\n        let html = \x27<div class=\"\x27 + containerClass + \x27\">\x27;\n        html += \x27<h4>\x27 + node.entityType + \x27</h4>\x27;\n        html += \x27<div id=\"aggregate-stats-\x27 + safeId + \x27\"></div>\x27;\n        html += this.renderFields(node);\n        node.children.forEach(child => \x7b\n          html += this.renderHierarchyNode(child, depth + 1);\n        \x7d);\n        html += \x27</div>\x27;\n        return html;\n      \x7d\n\n      renderCards() \x7b\n        const nodes = this.buildNodes();\n        if (!nodes.length) return \x27<div class=\"entity-item\">No matching data</div>\x27;\n        return nodes.map(node => this.renderCard(node)).join(\x27\x27);\n      \x7d\n\n      renderCard(node) \x7b\n        const safeId = node.entityType.replace(/\\./g, \x27_\x27);\n        let html = \x27<div class=\"preview-card\">\x27;\n        html += \x27<h4>\x27 + node.entityType + \x27</h4>\x27;\n        html += \x27<div id=\"aggregate-stats-\x27 + safeId + \x27\"></div>\x27;\n        html += \x27<div>\x27 + (this.getDisplayValue(node.entityType, node.entity) || \x27-\x27) + \x27</div>\x27;\n        if (node.children.length) \x7b\n          html += \x27<div style=\"margin-top: 12px;\">\x27;\n          node.children.forEach(child => \x7b\n            html += this.renderCard(child);\n          \x7d);\n          html += \x27</div>\x27;\n        \x7d\n        html += \x27</div>\x27;\n        return html;\n      \x7d\n\n      renderTable() \x7b\n        const rows = this.collectRows();\n        const colCount = this.entityTypes.length || 1;\n        let html = \x27\x27;\n\n        // Add aggregate stats containers for each entity type\n        this.entityTypes.forEach(type => \x7b\n          const safeId = type.replace(/\\./g, \x27_\x27);\n          html += \x27<h4>\x27 + type + \x27</h4>\x27;\n          html += \x27<div id=\"aggregate-stats-\x27 + safeId + \x27\"></div>\x27;\n        \x7d);\n\n        html += \x27<table><thead><tr>\x27;\n        this.entityTypes.forEach(type => \x7b\n          html += \x27<th>\x27 + type + \x27</th>\x27;\n        \x7d);\n        html += \x27</tr></thead><tbody>\x27;\n        if (!rows.length) \x7b\n          html += \x27<tr><td colspan=\"\x27 + colCount + \x27\">No matching data</td></tr>\x27;\n        \x7d else \x7b\n          rows.forEach(row => \x7b\n            html += \x27<tr>\x27;\n            row.forEach((node, idx) => \x7b\n              const value = node ? this.getDisplayValue(this.entityTypes[idx], node.entity) || \x27-\x27 : \x27-\x27;\n              html += \x27<td>\x27 + value + \x27</td>\x27;\n            \x7d);\n            html += \x27</tr>\x27;\n          \x7d);\n        \x7d\n        html += \x27</tbody></table>\x27;\n        return html;\n      \x7d\n\n      renderTimeline() \x7b\n        const rows = this.collectRows();\n        if (!rows.length) return \x27<div class=\"entity-item\">No timeline data</div>\x27;\n        let html = \x27<div class=\"timeline\">\x27;\n        rows.forEach(row => \x7b\n          const labels = row.map((node, idx) => \x7b\n            return node ? (this.getDisplayValue(this.entityTypes[idx], node.entity) || this.entityTypes[idx]) : null;\n          \x7d).filter(Boolean);\n          html += \x27<div class=\"timeline-step\">\x27;\n          html += \x27<div style=\"font-weight: 600;\">\x27 + labels.join(\x27 → \x27) + \x27</div>\x27;\n          html += \x27</div>\x27;\n        \x7d);\n        html += \x27</div>\x27;\n        return html;\n      \x7d\n\n      renderFields(node) \x7b\n        const fields = this.getFields(node.entityType);\n        if (!fields.length) return \x27\x27;\n        let html = \x27<div class=\"entity-item\">\x27;\n        fields.forEach(field => \x7b\n          const value = this.getFieldValue(node.entity, field) || \x27-\x27;\n          if (field.showLabel === false) \x7b\n            html += \x27<div>\x27 + value + \x27</div>\x27;\n          \x7d else \x7b\n            html += \x27<div><strong>\x27 + field.name + \x27:</strong> \x27 + value + \x27</div>\x27;\n          \x7d\n        \x7d);\n        html += \x27</div>\x27;\n        return html;\n      \x7d\n\n      getFields(entityType) \x7b\n        return this.selectedFields?.[entityType] || [];\n      \x7d\n\n      getFieldValue(entity, field) \x7b\n        if (!entity || !field) return \x27\x27;\n        if (field.location === \x27basic\x27) \x7b\n          return entity[field.name];\n        \x7d\n        if (field.location === \x27tag\x27) \x7b\n          return getTagValue(entity.tags, field.name);\n        \x7d\n        if (field.location === \x27property\x27) \x7b\n          return getPropertyValue(entity.properties, field.name);\n        \x7d\n        if (field.location?.startsWith(\x27namespace:\x27)) \x7b\n          const ns = field.location.split(\x27:\x27)[1];\n          return getNamespaceProperty(entity, ns, field.name);\n        \x7d\n        return \x27\x27;\n      \x7d\n\n      getDisplayValue(entityType, entity) \x7b\n        const fields = this.getFields(entityType);\n        const preferred = fields.find(f => f.zone === \x27header\x27) || fields[0];\n        if (preferred) \x7b\n          return this.getFieldValue(entity, preferred);\n        \x7d\n        return entity?.entityName || entity?.entityId || \x27\x27;\n      \x7d\n\n      buildNodes() \x7b\n        if (!this.entityTypes.length) return [];\n        const roots = this.entityData[this.entityTypes[0]] || [];\n        return roots.map(root => this.buildNode(0, root));\n      \x7d\n\n      buildNode(depth, entity) \x7b\n        const entityType = this.entityTypes[depth];\n        const node = \x7b entityType, entity, children: [] \x7d;\n        if (depth < this.relationships.length) \x7b\n          const rel = this.relationships[depth];\n          const children = (this.entityData[rel.to] || []).filter(child => \x7b\n            const parentValue = this.getRelationshipValue(entity, rel.fromField, rel.fromLocation);\n            const childValue = this.getRelationshipValue(child, rel.toField, rel.toLocation);\n            return this.valuesMatch(parentValue, childValue);\n          \x7d);\n          node.children = children.map(child => this.buildNode(depth + 1, child));\n        \x7d\n        return node;\n      \x7d\n\n      collectRows() \x7b\n        const nodes = this.buildNodes();\n        const rows = [];\n        const depthCount = this.entityTypes.length || 1;\n\n        const traverse = (depth, node, currentRow) => \x7b\n          const nextRow = currentRow.slice();\n          nextRow[depth] = node;\n          if (!node.children.length || depth === depthCount - 1) \x7b\n            rows.push(nextRow);\n            return;\n          \x7d\n          node.children.forEach(child => traverse(depth + 1, child, nextRow));\n        \x7d;\n\n        nodes.forEach(node => \x7b\n          const seed = new Array(depthCount).fill(null);\n          traverse(0, node, seed);\n        \x7d);\n\n        if (!nodes.length && this.entityTypes.length) \x7b\n          const fallback = (this.entityData[this.entityTypes[0]] || []).map(entity => \x7b\n            const row = new Array(depthCount).fill(null);\n            row[0] = \x7b entity \x7d;\n            return row;\n          \x7d);\n          fallback.forEach(row => rows.push(row));\n        \x7d\n\n        return rows;\n      \x7d\n\n      getRelationshipValue(entity, fieldName, location) \x7b\n        if (!entity || !fieldName) return undefined;\n        const loc = location || \x27auto\x27;\n        if (loc === \x27basic\x27) \x7b\n          return entity[fieldName];\n        \x7d\n        if (loc === \x27tag\x27) \x7b\n          return getTagValue(entity.tags, fieldName);\n        \x7d\n        if (loc === \x27property\x27) \x7b\n          return getPropertyValue(entity.properties, fieldName);\n        \x7d\n        if (loc?.startsWith && loc.startsWith(\x27namespace:\x27)) \x7b\n          const ns = loc.split(\x27:\x27)[1];\n          return getNamespaceProperty(entity, ns, fieldName);\n        \x7d\n\n        if (entity[fieldName] !== undefined && entity[fieldName] !== null) \x7b\n          return entity[fieldName];\n        \x7d\n\n        const propertyValue = getPropertyValue(entity.properties, fieldName);\n        if (propertyValue !== undefined && propertyValue !== null) \x7b\n          return propertyValue;\n        \x7d\n\n        const tagValue = getTagValue(entity.tags, fieldName);\n        if (tagValue !== undefined && tagValue !== null) \x7b\n          return tagValue;\n        \x7d\n\n        if (entity.namespaces) \x7b\n          for (const ns of entity.namespaces) \x7b\n            const prop = ns.properties?.find(p => p.name === fieldName);\n            if (prop) return prop.value;\n          \x7d\n        \x7d\n\n        return undefined;\n      \x7d\n\n      valuesMatch(parentValue, childValue) \x7b\n        if (parentValue === undefined || parentValue === null) return false;\n        if (childValue === undefined || childValue === null) return false;\n        return parentValue === childValue;\n      \x7d\n    \x7d\n      "

def aggCssSeg1 : String :=
  "\n    .aggregate-stats-container \x7b\n      display: grid;\n      grid-template-columns: repeat(auto-fit, minmax(200px, 1fr));\n      gap: 16px;\n      margin-bottom: 32px;\n      padding: 20px;\n      background: rgba(176, 132, 255, 0.05);\n      border-radius: 12px;\n      border: 1px solid rgba(176, 132, 255, 0.2);\n    \x7d\n\n    .stat-card \x7b\n      background: rgba(0, 217, 255, 0.1);\n      border: 1px solid rgba(0, 217, 255, 0.3);\n      border-radius: 8px;\n      padding: 20px;\n      text-align: center;\n      transition: transform 0.2s, box-shadow 0.2s;\n    \x7d\n\n    .stat-card:hover \x7b\n      transform: translateY(-4px);\n      box-shadow: 0 8px 16px rgba(0, 217, 255, 0.2);\n    \x7d\n\n    .stat-label \x7b\n      font-size: 12px;\n      color: #9ca3af;\n      text-transform: uppercase;\n      letter-spacing: 0.5px;\n      margin-bottom: 8px;\n    \x7d\n\n    .stat-value \x7b\n      font-size: 32px;\n      font-weight: bold;\n      color: #00d9ff;\n      line-height: 1.2;\n    \x7d\n"

def hierDisplaySeg1 : String :=
  "\n    const builderConfig = "

def hierDisplaySeg2 : String :=
  ";\n    const layoutMode = \x27"

def hierDisplaySeg3 : String :=
  "\x27;\n    "

def hierDisplaySeg4 : String :=
  "\n\n    function displayHierarchicalData() \x7b\n      const renderer = new ReportRenderer(builderConfig, entityData);\n      let html = \x27\x27;\n      if (layoutMode === \x27hierarchical\x27) \x7b\n        html = renderer.renderHierarchy();\n      \x7d else if (layoutMode === \x27table\x27) \x7b\n        html = renderer.renderTable();\n      \x7d else if (layoutMode === \x27timeline\x27) \x7b\n        html = renderer.renderTimeline();\n      \x7d else \x7b\n        html = renderer.renderCards();\n      \x7d\n      document.getElementById(\x27report-content\x27).innerHTML = html;\n    \x7d\n      "

def defaultQTSeg1 : String :=
  "\n    query GetEntities(\\$first: Int!, \\$entityType: [String!]) \x7b\n      entityQuery \x7b\n        queryEntities(first: \\$first, entityType: \\$entityType) \x7b\n          totalCount\n          entities \x7b\n            "

def defaultQTSeg2 : String :=
  "\n            "

def defaultQTSeg3 : String :=
  "\n            "

def defaultQTSeg4 : String :=
  "\n            "

def defaultQTSeg5 : String :=
  "\n          \x7d\n        \x7d\n      \x7d\n    \x7d\n  "

def multiShellSeg1 : String :=
  "<!DOCTYPE html>\n<html>\n<head>\n  <title>"

def multiShellSeg2 : String :=
  "</title>\n  <style>\n    "

def multiShellSeg3 : String :=
  "\n    "

def multiShellSeg4 : String :=
  "\n  </style>\n</head>\n<body>\n  <div class=\"header\">\n    <h1>"

def multiShellSeg5 : String :=
  "</h1>\n    "

def multiShellSeg6 : String :=
  "\n  </div>\n\n  <div id=\"loading\">⏳ Loading data...</div>\n\n  "

def multiShellSeg7 : String :=
  "\n\n  <div class=\"container\">\n    <div id=\"report-content\"></div>\n  </div>\n\n  <script>\n    var serviceUrl = \x27\x27;\n    var bearerToken = \x27\x27;\n\n    "

def multiShellSeg8 : String :=
  "\n\n    "

def multiShellSeg9 : String :=
  "\n\n    "

def multiShellSeg10 : String :=
  "\n\n    "

def multiShellSeg11 : String :=
  "\n\n    "

def multiShellSeg12 : String :=
  "\n\n    async function main() \x7b\n      try \x7b\n        "

def multiShellSeg13 : String :=
  "\n        await fetchAllData();\n        document.getElementById(\x27loading\x27).style.display = \x27none\x27;\n      \x7d catch (error) \x7b\n        document.getElementById(\x27loading\x27).innerHTML = \x27❌ Error: \x27 + error.message;\n        document.getElementById(\x27loading\x27).style.backgroundColor = \x27#cb253e\x27;\n      \x7d\n    \x7d\n\n    function receiveHubToken(event) \x7b\n      const config = event?.data?.data || event?.data?.config;\n      if (event?.data?.type === \x27apiConfig\x27 && config?.token?.length && config?.endPoint?.length) \x7b\n        bearerToken = config?.token;\n        serviceUrl = config?.endPoint;\n        main();\n      \x7d\n    \x7d\n\n    window.addEventListener(\x27message\x27, receiveHubToken, false);\n  </script>\n</body>\n</html>"

def entityBlockSeg1 : String :=
  "async function fetch"

def entityBlockSeg2 : String :=
  "() \x7b\n  "

def entityBlockSeg3 : String :=
  "\n\n  const variables = \x7b\n    first: 1000,\n    entityType: [\""

def entityBlockSeg4 : String :=
  "\"]\n  \x7d;\n\n  const response = await fetch(serviceUrl, \x7b\n    method: \x27POST\x27,\n    headers: \x7b\n      \x27Content-Type\x27: \x27application/json\x27,\n      \x27Authorization\x27: bearerToken\n    \x7d,\n    body: JSON.stringify(\x7b query, variables \x7d)\n  \x7d);\n\n  const result = await response.json();\n  if (result.errors) throw new Error(result.errors[0].message);\n\n  entityData[\""

def entityBlockSeg5 : String :=
  "\"] = result.data.entityQuery.queryEntities.entities;\n  return entityData[\""

def entityBlockSeg6 : String :=
  "\"];\n\x7d\n\n"

def aggRenT1Seg1 : String :=
  "\nfunction renderAggregateStats() \x7b\n  // Render stats for each entity type\n"

def aggRenT3Seg1 : String :=
  "\n    // "

def aggRenT3Seg2 : String :=
  "\n    const data = aggregateData[\x27"

def aggRenT3Seg3 : String :=
  "\x27]?.[\x27"

def aggRenT3Seg4 : String :=
  "\x27];\n    if (data) \x7b\n"

def aggRenT4Seg1 : String :=
  "      html += `<div class=\"stat-card\">\n        <div class=\"stat-label\">"

def aggRenT4Seg2 : String :=
  "</div>\n        <div class=\"stat-value\">$\x7b(data.count || 0).toLocaleString()\x7d</div>\n      </div>`;\n"

def aggRenT5Seg1 : String :=
  "      html += `<div class=\"stat-card\">\n        <div class=\"stat-label\">"

def aggRenT5Seg2 : String :=
  "</div>\n        <div class=\"stat-value\">$\x7b(data.sum || 0).toLocaleString()\x7d</div>\n      </div>`;\n"

def aggRenT6Seg1 : String :=
  "      html += `<div class=\"stat-card\">\n        <div class=\"stat-label\">"

def aggRenT6Seg2 : String :=
  "</div>\n        <div class=\"stat-value\">$\x7b(data.avg || 0).toFixed(2)\x7d</div>\n      </div>`;\n"

def aggRenT7Seg1 : String :=
  "      html += `<div class=\"stat-card\">\n        <div class=\"stat-label\">"

def aggRenT7Seg2 : String :=
  "</div>\n        <div class=\"stat-value\">$\x7b(data.min || 0).toLocaleString()\x7d</div>\n      </div>`;\n"

def aggRenT8Seg1 : String :=
  "      html += `<div class=\"stat-card\">\n        <div class=\"stat-label\">"

def aggRenT8Seg2 : String :=
  "</div>\n        <div class=\"stat-value\">$\x7b(data.max || 0).toLocaleString()\x7d</div>\n      </div>`;\n"

def defaultQBSeg1 : String :=
  "\n        query GetEntities(\\$first: Int!, \\$entityType: [String!]) \x7b\n          entityQuery \x7b\n            queryEntities(first: \\$first, entityType: \\$entityType) \x7b\n              totalCount\n              entities \x7b\n                "

def defaultQBSeg5 : String :=
  "\n              \x7d\n            \x7d\n          \x7d\n        \x7d\n      "

def singleShellSeg1 : String :=
  "<!DOCTYPE html>\n<html>\n<head>\n  <title>"

def singleShellSeg2 : String :=
  "</title>\n  <style>\n    body \x7b margin: 0; padding: 0; background: #000; font-family: \x27Inter\x27, sans-serif; color: #e0e0e0; \x7d\n    .header \x7b background: #0f171c; padding: 20px; border-bottom: 2px solid #00d9ff; \x7d\n    .container \x7b padding: 40px; max-width: 1400px; margin: 0 auto; \x7d\n    #loading \x7b background: #ffe9a2; color: #000; padding: 16px; text-align: center; \x7d\n    table \x7b width: 100%; border-collapse: collapse; background: rgba(255,255,255,0.05); border-radius: 8px; overflow: hidden; \x7d\n    th \x7b padding: 12px; text-align: left; background: rgba(0,217,255,0.1); color: #00d9ff; border-bottom: 2px solid rgba(255,255,255,0.1); \x7d\n    td \x7b padding: 12px; border-bottom: 1px solid rgba(255,255,255,0.05); \x7d\n    tr:hover \x7b background: rgba(255,255,255,0.02); \x7d\n    .summary-card \x7b background: rgba(0,217,255,0.1); padding: 20px; border-radius: 8px; border-left: 4px solid #00d9ff; \x7d\n    .group-header \x7b color: #00d9ff; padding: 12px; background: rgba(0,217,255,0.1); border-radius: 6px; margin-bottom: 12px; \x7d\n    "

def singleShellSeg3 : String :=
  "\n  </style>\n</head>\n<body>\n  <div class=\"header\">\n    <h1>"

def singleShellSeg4 : String :=
  "</h1>\n    "

def singleShellSeg5 : String :=
  "\n  </div>\n  <div id=\"loading\">⏳ Loading data...</div>\n  "

def singleShellSeg6 : String :=
  "\n  <div class=\"container\">\n    <div id=\"report-content\"></div>\n  </div>\n\n  <script>\n    var serviceUrl = \x27\x27;\n    var bearerToken = \x27\x27;\n\n    "

def singleShellSeg7 : String :=
  "\n\n    "

def singleShellSeg8 : String :=
  "\n\n    "

def singleShellSeg9 : String :=
  "\n\n    async function fetchData() \x7b\n      "

def singleShellSeg10 : String :=
  "\n\n      const variables = \x7b\n        first: 1000,\n        entityType: [\""

def singleShellSeg11 : String :=
  "\"]\n      \x7d;\n\n      try \x7b\n        const response = await fetch(serviceUrl, \x7b\n          method: \x27POST\x27,\n          headers: \x7b\n            \x27Content-Type\x27: \x27application/json\x27,\n            \x27Authorization\x27: bearerToken\n          \x7d,\n          body: JSON.stringify(\x7b query, variables \x7d)\n        \x7d);\n\n        const result = await response.json();\n        if (result.errors) \x7b\n          document.getElementById(\x27loading\x27).innerHTML = \x27❌ Error: \x27 + JSON.stringify(result.errors);\n          return;\n        \x7d\n\n        const data = result.data.entityQuery.queryEntities;\n        document.getElementById(\x27loading\x27).style.display = \x27none\x27;\n        displayData(data);\n      \x7d catch (error) \x7b\n        document.getElementById(\x27loading\x27).innerHTML = \x27❌ Error: \x27 + error.message;\n      \x7d\n    \x7d\n\n    "

def singleShellSeg12 : String :=
  "\n\n    async function main() \x7b\n      "

def singleShellSeg13 : String :=
  "\n      await fetchData();\n    \x7d\n\n    function receiveHubToken(event) \x7b\n      const config = event?.data?.data;\n      if (event?.data?.type === \x27apiConfig\x27 && config?.token?.length && config?.endPoint?.length) \x7b\n        bearerToken = config?.token;\n        serviceUrl = config?.endPoint;\n        main();\n      \x7d\n    \x7d\n\n    window.addEventListener(\x27message\x27, receiveHubToken, false);\n  </script>\n</body>\n</html>"

def tableDispSeg1 : String :=
  "\n    function displayData(data) \x7b\n      const entities = data.entities || [];\n      let html = \x27<table><thead><tr>\x27;\n      "

def tableDispSeg2 : String :=
  "\n      html += \x27</tr></thead><tbody>\x27;\n\n      entities.forEach(entity => \x7b\n        html += \x27<tr>\x27;\n        "

def tableDispSeg3 : String :=
  "\n        html += \x27</tr>\x27;\n      \x7d);\n\n      html += \x27</tbody></table>\x27;\n      document.getElementById(\x27report-content\x27).innerHTML = html;\n    \x7d"

def sumTableDispSeg1 : String :=
  "\n    function displayData(data) \x7b\n      const entities = data.entities || [];\n      let html = \x27<div style=\"display: grid; grid-template-columns: repeat(auto-fit, minmax(200px, 1fr)); gap: 16px; margin-bottom: 24px;\">\x27;\n      html += \x27<div class=\"summary-card\"><h3 style=\"margin: 0;\">Total Entities</h3><div style=\"font-size: 32px; font-weight: bold; margin-top: 8px;\">\x27 + entities.length + \x27</div></div>\x27;\n      html += \x27</div>\x27;\n\n      html += \x27<table><thead><tr>\x27;\n      "

def sumTableDispSeg2 : String :=
  "\n      html += \x27</tr></thead><tbody>\x27;\n\n      entities.forEach(entity => \x7b\n        html += \x27<tr>\x27;\n        "

def sumTableDispSeg3 : String :=
  "\n        html += \x27</tr>\x27;\n      \x7d);\n\n      html += \x27</tbody></table>\x27;\n      document.getElementById(\x27report-content\x27).innerHTML = html;\n    \x7d"

def groupedDispSeg1 : String :=
  "\n    function displayData(data) \x7b\n      const entities = data.entities || [];\n      const groups = \x7b\x7d;\n\n      entities.forEach(entity => \x7b\n        const groupValue = "

def groupedDispSeg2 : String :=
  " || \x27Unknown\x27;\n        if (!groups[groupValue]) groups[groupValue] = [];\n        groups[groupValue].push(entity);\n      \x7d);\n\n      let html = \x27\x27;\n      Object.keys(groups).sort().forEach(groupName => \x7b\n        const groupEntities = groups[groupName];\n        html += \x27<div style=\"margin-bottom: 24px;\">\x27;\n        html += \x27<div class=\"group-header\">\x27 + groupName + \x27 (\x27 + groupEntities.length + \x27)</div>\x27;\n        html += \x27<ul style=\"list-style: none; padding: 0;\">\x27;\n        groupEntities.forEach(e => \x7b\n          html += \x27<li style=\"padding: 8px; border-bottom: 1px solid rgba(255,255,255,0.05);\">\x27 + (e.entityName || e.entityId) + \x27</li>\x27;\n        \x7d);\n        html += \x27</ul></div>\x27;\n      \x7d);\n\n      document.getElementById(\x27report-content\x27).innerHTML = html;\n    \x7d"

def aggRenT2Seg1 : String :=
  "\n  // Stats for "

def aggRenT2Seg2 : String :=
  "\n  const container_"

def aggRenT2Seg3 : String :=
  " = document.getElementById(\x27aggregate-stats-"

def aggRenT2Seg4 : String :=
  "\x27);\n  if (container_"

def aggRenT2Seg5 : String :=
  ") \x7b\n    let html = \x27<div class=\"aggregate-stats-container\">\x27;\n"


/-- `generateReportCSS(displayMode)` (src/builder.js:2701-2843): a fixed
stylesheet — the `displayMode` parameter is unused in the source body. -/
def generateReportCSS (displayMode : String) : String :=
  let _ := displayMode
  cssReportSeg1

/-- `generateHelperFunctions()` (src/builder.js:2677-2699). -/
def generateHelperFunctions : String :=
  helperFnsSeg1

/-- `generateReportRendererClass()` (src/builder.js:2422-2675). -/
def generateReportRendererClass : String :=
  rendererClassSeg1

/-- `generateAggregateCSS()` (src/builder.js:2177-2222). -/
def generateAggregateCSS (st : BuilderState) : String :=
  let hasStats := st.aggregateStats.any (fun kv => kv.2.length > 0)
  if !hasStats then "" else aggCssSeg1

/-- The basic-field selection interpolated into the default multi-entity
query template (src/builder.js:2329): the selected-or-join basic field
names joined by newline, or — when none are needed — the fixed fallback
`entityId entityName entityType`, emitted without consulting the
schema. -/
def defaultBasicSelection (fields : List SelectedField) : String :=
  if fields.any (fun f => f.location == "basic") then
    joinSep "\n            " ((fields.filter (fun f => f.location == "basic")).map
      (fun f => f.name))
  else "entityId\n            entityName\n            entityType"

/-- The deduplicated namespace names of the fields
(src/builder.js:2319-2321). -/
def namespacesOf (fields : List SelectedField) : List String :=
  dedupStr ((fields.filter (fun f => jsStartsWith f.location "namespace:")).map
    (fun f => nsNameOf f.location))

/-- `defaultQueryTemplate` of `generateGraphQLQueries`
(src/builder.js:2323-2340): the artifact-text form (it contains `\$`
escape sequences that the artifact's own template literal later decodes
to `$`). -/
def defaultQueryTemplate (st : BuilderState) (entityType : String) : String :=
  let fields := getFieldsNeededForEntity st entityType
  defaultQTSeg1 ++ defaultBasicSelection fields ++ defaultQTSeg2
    ++ (if fields.any (fun f => f.location == "tag") then "tags \x7b key value \x7d" else "")
    ++ defaultQTSeg3
    ++ (if fields.any (fun f => f.location == "property") then "properties \x7b name value \x7d"
        else "")
    ++ defaultQTSeg4
    ++ (if (namespacesOf fields).length > 0 then
          "namespaces \x7b\n              name\n              properties \x7b name value \x7d\n            \x7d"
        else "")
    ++ defaultQTSeg5

/-- `querySnippet` of `generateGraphQLQueries` (src/builder.js:2341-2343):
a user override is embedded as a JSON string literal, the generated
template as a template literal. -/
def querySnippet (st : BuilderState) (entityType : String) : String :=
  match getQueryOverrideForEntity st.selectedEntityTypes st.customQueryOverride entityType with
  | some o => "const query = " ++ jsonStringify o ++ ";"
  | none => "const query = `" ++ defaultQueryTemplate st entityType ++ "`;"

/-- One per-entity-type fetch function of `generateGraphQLQueries`
(src/builder.js:2345-2369). -/
def entityFetchBlock (st : BuilderState) (entityType : String) : String :=
  entityBlockSeg1 ++ jsReplaceDots entityType ++ entityBlockSeg2
    ++ querySnippet st entityType ++ entityBlockSeg3 ++ entityType ++ entityBlockSeg4
    ++ entityType ++ entityBlockSeg5 ++ entityType ++ entityBlockSeg6

/-- The trailing `fetchAllData` of `generateGraphQLQueries`
(src/builder.js:2372-2375). -/
def fetchAllDataBlock (st : BuilderState) : String :=
  "async function fetchAllData() \x7b\n  "
    ++ joinSep "\n  " (st.selectedEntityTypes.map (fun et =>
        "await fetch" ++ jsReplaceDots et ++ "();"))
    ++ "\n  displayHierarchicalData();\n\x7d"

/-- `generateGraphQLQueries()` (src/builder.js:2309-2378). -/
def generateGraphQLQueries (st : BuilderState) : String :=
  "const entityData = \x7b\x7d;\n\n"
    ++ String.join (st.selectedEntityTypes.map (entityFetchBlock st))
    ++ fetchAllDataBlock st

/-- `generateAggregateQueries()` (src/builder.js:2033-2091).  When no
entity type has stats the function returns `''`.  Otherwise the
per-entity loop's very first non-empty entry evaluates
`if (!aggregateData[entityType])` (src/builder.js:2044) — but
`aggregateData` is not declared anywhere in the builder's scope (it
exists only inside the *generated* artifact's text), so the read throws
`ReferenceError` before any code is emitted. -/
def generateAggregateQueries (st : BuilderState) : Except JsError String :=
  let hasStats := st.aggregateStats.any (fun kv => kv.2.length > 0)
  if !hasStats then .ok ""
  else .error (.referenceError "aggregateData")

/-- The escaped label of an aggregate stat as embedded by
`generateAggregateRenderer` (src/builder.js:2117):
`escapeHTML(stat.label || `${stat.operation}${stat.field ? ' ' +
stat.field : ''}`)`. -/
def statLabelText (stat : AggregateStat) : String :=
  escapeHTML (if stat.label != "" then stat.label
    else stat.operation ++ (if stat.field != "" then " " ++ stat.field else ""))

/-- The per-stat code of `generateAggregateRenderer`
(src/builder.js:2116-2159). -/
def aggStatBlock (entityType : String) (stat : AggregateStat) : String :=
  let label := statLabelText stat
  aggRenT3Seg1 ++ label ++ aggRenT3Seg2 ++ entityType ++ aggRenT3Seg3
    ++ toString stat.id ++ aggRenT3Seg4
    ++ (if stat.operation == "COUNT" then aggRenT4Seg1 ++ label ++ aggRenT4Seg2
        else if stat.operation == "SUM" then aggRenT5Seg1 ++ label ++ aggRenT5Seg2
        else if stat.operation == "AVG" then aggRenT6Seg1 ++ label ++ aggRenT6Seg2
        else if stat.operation == "MIN" then aggRenT7Seg1 ++ label ++ aggRenT7Seg2
        else if stat.operation == "MAX" then aggRenT8Seg1 ++ label ++ aggRenT8Seg2
        else "")
    ++ "    \x7d\n"

/-- The per-entity-type code of `generateAggregateRenderer`
(src/builder.js:2105-2166). -/
def aggEntityBlock (entityType : String) (stats : List AggregateStat) : String :=
  let safeId := jsReplaceDots entityType
  aggRenT2Seg1 ++ entityType ++ aggRenT2Seg2 ++ safeId ++ aggRenT2Seg3 ++ safeId
    ++ aggRenT2Seg4 ++ safeId ++ aggRenT2Seg5
    ++ String.join (stats.map (aggStatBlock entityType))
    ++ "    html += \x27</div>\x27;\n    container_" ++ safeId
    ++ ".innerHTML = html;\n  \x7d\n"

/-- `generateAggregateRenderer()` (src/builder.js:2096-2172). -/
def generateAggregateRenderer (st : BuilderState) : String :=
  let hasStats := st.aggregateStats.any (fun kv => kv.2.length > 0)
  if !hasStats then ""
  else
    aggRenT1Seg1
      ++ String.join (st.aggregateStats.map (fun kv =>
          if kv.2.isEmpty then "" else aggEntityBlock kv.1 kv.2))
      ++ "\x7d\n"

/-- `JSON.stringify` of the relationship objects in `configPayload`
(keys in the insertion order of the construction sites:
`from`, `to`, `fromField`, `toField`, `fromLocation`, `toLocation`). -/
def jsonOfRelationship (r : Relationship) : String :=
  "\x7b" ++ jsonStringify "from" ++ ":" ++ jsonStringify r.from_
    ++ "," ++ jsonStringify "to" ++ ":" ++ jsonStringify r.to_
    ++ "," ++ jsonStringify "fromField" ++ ":" ++ jsonStringify r.fromField
    ++ "," ++ jsonStringify "toField" ++ ":" ++ jsonStringify r.toField
    ++ "," ++ jsonStringify "fromLocation" ++ ":" ++ jsonStringify r.fromLocation
    ++ "," ++ jsonStringify "toLocation" ++ ":" ++ jsonStringify r.toLocation
    ++ "\x7d"

/-- `JSON.stringify` of a selected-field object (keys in the insertion
order of the construction sites, src/builder.js:1150 and 1651). -/
def jsonOfSelectedField (f : SelectedField) : String :=
  "\x7b" ++ jsonStringify "name" ++ ":" ++ jsonStringify f.name
    ++ "," ++ jsonStringify "location" ++ ":" ++ jsonStringify f.location
    ++ "," ++ jsonStringify "zone" ++ ":" ++ jsonStringify f.zone
    ++ "," ++ jsonStringify "showLabel" ++ ":" ++ (if f.showLabel then "true" else "false")
    ++ "\x7d"

/-- `JSON.stringify` of a JSON array given its rendered elements. -/
def jsonArr (elems : List String) : String :=
  "[" ++ joinSep "," elems ++ "]"

/-- The `configPayload` of `generateHierarchicalDisplay`
(src/builder.js:2381-2385): `JSON.stringify({ entityTypes,
relationships, selectedFields })`. -/
def configPayload (st : BuilderState) : String :=
  "\x7b" ++ jsonStringify "entityTypes" ++ ":"
    ++ jsonArr (st.selectedEntityTypes.map jsonStringify)
    ++ "," ++ jsonStringify "relationships" ++ ":"
    ++ jsonArr (st.relationships.map jsonOfRelationship)
    ++ "," ++ jsonStringify "selectedFields" ++ ":"
    ++ "\x7b" ++ joinSep "," (st.selectedFields.map (fun kv =>
        jsonStringify kv.1 ++ ":" ++ jsonArr (kv.2.map jsonOfSelectedField))) ++ "\x7d"
    ++ "\x7d"

/-- `generateHierarchicalDisplay(displayMode)`
(src/builder.js:2380-2407). -/
def generateHierarchicalDisplay (st : BuilderState) (displayMode : String) : String :=
  hierDisplaySeg1 ++ configPayload st ++ hierDisplaySeg2 ++ displayMode ++ hierDisplaySeg3
    ++ generateReportRendererClass ++ hierDisplaySeg4

/-- One `<td>` emitter line of the single-entity table templates
(src/builder.js:1953-1958). -/
def tdCellLine (f : SelectedField) : String :=
  if f.location == "basic" then
    "html += \x27<td>\x27 + (entity." ++ f.name ++ " || \x27-\x27) + \x27</td>\x27;"
  else if f.location == "tag" then
    "html += \x27<td>\x27 + (getTagValue(entity.tags, \x27" ++ f.name
      ++ "\x27) || \x27-\x27) + \x27</td>\x27;"
  else if f.location == "property" then
    "html += \x27<td>\x27 + (getPropertyValue(entity.properties, \x27" ++ f.name
      ++ "\x27) || \x27-\x27) + \x27</td>\x27;"
  else "html += \x27<td>-</td>\x27;"

/-- One `<th>` emitter line of the single-entity table templates
(src/builder.js:1948). -/
def thCellLine (f : SelectedField) : String :=
  "html += \x27<th>" ++ f.name ++ "</th>\x27;"

/-- `generateTableDisplay(fields)` (src/builder.js:1943-1965).  The
`join('\\n      ')` separators are the two-character sequence `\n`
followed by spaces (single-quoted `'\\n'` in the source is a literal
backslash). -/
def generateTableDisplay (fields : List SelectedField) : String :=
  tableDispSeg1 ++ joinSep "\\n      " (fields.map thCellLine) ++ tableDispSeg2
    ++ joinSep "\\n        " (fields.map tdCellLine) ++ tableDispSeg3

/-- `generateSummaryTableDisplay(fields)` (src/builder.js:1967-1993). -/
def generateSummaryTableDisplay (fields : List SelectedField) : String :=
  sumTableDispSeg1 ++ joinSep "\\n      " (fields.map thCellLine) ++ sumTableDispSeg2
    ++ joinSep "\\n        " (fields.map tdCellLine) ++ sumTableDispSeg3

/-- `generateGroupedDisplay(fields)` (src/builder.js:1995-2028):
`const groupField = fields[0]` — with no fields this is `undefined` and
the following `groupField.location` access throws a `TypeError`. -/
def generateGroupedDisplay (fields : List SelectedField) : Except JsError String :=
  match fields with
  | [] => .error (.typeError "location")
  | groupField :: _ =>
    let groupAccessor :=
      if groupField.location == "basic" then "entity." ++ groupField.name
      else if groupField.location == "tag" then
        "getTagValue(entity.tags, \x27" ++ groupField.name ++ "\x27)"
      else if groupField.location == "property" then
        "getPropertyValue(entity.properties, \x27" ++ groupField.name ++ "\x27)"
      else "\x27Unknown\x27"
    .ok (groupedDispSeg1 ++ groupAccessor ++ groupedDispSeg2)

/-- `generateSingleEntityDisplayFunction(displayMode, entityType, fields)`
(src/builder.js:1933-1941); `entityType` is unused in the source body. -/
def generateSingleEntityDisplayFunction (displayMode entityType : String)
    (fields : List SelectedField) : Except JsError String :=
  let _ := entityType
  if displayMode == "summary-table" then .ok (generateSummaryTableDisplay fields)
  else if displayMode == "grouped" then generateGroupedDisplay fields
  else .ok (generateTableDisplay fields)

/-- The schema's basic-field list for an entity type
(`entity?.fields?.basic || []` via `schemaCache.getEntity(entityType) ||
schema.entityTypes.find(...)` — the cache holds the same schema). -/
def availableBasicOf (schema : Schema) (entityType : String) : List String :=
  match schema.entityTypes.find? (fun e => e.name == entityType) with
  | some e =>
    match e.fields with
    | some f => f.basic
    | none => []
  | none => []

/-- `buildFieldSelectionSet(entityType)` (src/builder.js:1493-1543), used
by the query-inspector text `generateGraphQLQueryText` — not by the
compiled artifact's query emission.  When no basic field is needed it
falls back to `entityId`, then `entityName`, then the first available
basic field of the schema, and throws `ReportBuilderError`
(`NO_FIELDS_AVAILABLE`) when even that is empty.  The final
`lines.join('\\n')` separator is the literal two-character `\n`. -/
def buildFieldSelectionSet (st : BuilderState) (entityType : String) :
    Except JsError String :=
  let fields := getFieldsNeededForEntity st entityType
  let basic := fields.filter (fun f => f.location == "basic")
  let firstLines : Except JsError (List String) :=
    if basic.length > 0 then .ok (basic.map (fun f => "        " ++ f.name))
    else
      let availableBasic := availableBasicOf st.schema entityType
      let lines0 : List String :=
        (if availableBasic.contains "entityId" then ["        entityId"] else [])
          ++ (if availableBasic.contains "entityName" then ["        entityName"] else [])
      let lines1 :=
        if lines0.length == 0 && availableBasic.length > 0 then
          ["        " ++ availableBasic.headD ""]
        else lines0
      if lines1.length == 0 then
        .error (.builderError ("No fields available for entity type: " ++ entityType)
          "NO_FIELDS_AVAILABLE")
      else .ok lines1
  match firstLines with
  | .error e => .error e
  | .ok lines =>
    let lines := lines ++
      (if fields.any (fun f => f.location == "tag") then ["        tags \x7b key value \x7d"]
       else [])
    let lines := lines ++
      (if fields.any (fun f => f.location == "property") then
        ["        properties \x7b name value \x7d"]
       else [])
    let lines := lines ++
      (if (namespacesOf fields).length > 0 then
        ["        namespaces \x7b", "          name",
          "          properties \x7b name value \x7d", "        \x7d"]
       else [])
    .ok (joinSep "\\n" lines)

/-- The `defaultQueryBody` of `generateSingleEntityReport`
(src/builder.js:1815-1826): unlike the multi-entity template, its field
separators and conditional blocks use the literal two-character `\n`
sequence (single-quoted `'\\n'` in the source). -/
def singleDefaultQueryBody (fields : List SelectedField) : String :=
  defaultQBSeg1
    ++ joinSep "\\n                "
        ((fields.filter (fun f => f.location == "basic")).map (fun f => f.name))
    ++ (if fields.any (fun f => f.location == "tag") then
          "\\n                tags \x7b key value \x7d" else "")
    ++ (if fields.any (fun f => f.location == "property") then
          "\\n                properties \x7b name value \x7d" else "")
    ++ (if fields.any (fun f => jsStartsWith f.location "namespace:") then
          "\\n                namespaces \x7b name properties \x7b name value \x7d \x7d" else "")
    ++ defaultQBSeg5

/-- `generateSingleEntityReport(title, description, displayMode)`
(src/builder.js:1808-1931).  The `${aggregateStats.length > 0 ? … : ''}`
interpolations (src/builder.js:1864 and 1914) always yield `''`:
`aggregateStats` is an object, so `.length` is `undefined` and the
comparison is false.  The display function is computed before the
aggregate queries, so a grouped layout with no selected fields throws
its `TypeError` first; otherwise any configured stat makes
`generateAggregateQueries` throw its `ReferenceError`. -/
def generateSingleEntityReport (env : JsEnv) (st : BuilderState)
    (title description displayMode : String) : Except JsError String :=
  let _ := env
  let entityType := st.selectedEntityTypes.headD ""
  let fields := ((st.selectedFields.find? (fun kv => kv.1 == entityType)).map
    (fun kv => kv.2)).getD []
  match generateSingleEntityDisplayFunction displayMode entityType fields with
  | .error e => .error e
  | .ok displayFunction =>
    let helperFunctions := generateHelperFunctions
    let overrideQuery :=
      getQueryOverrideForEntity st.selectedEntityTypes st.customQueryOverride entityType
    let queryDeclaration :=
      match overrideQuery with
      | some o => "const query = " ++ jsonStringify o ++ ";"
      | none => "const query = `" ++ singleDefaultQueryBody fields ++ "`;"
    let escapedTitle := escapeHTML (sanitizeInput title 200)
    let escapedDesc :=
      if description != "" then escapeHTML (sanitizeInput description 1000) else ""
    match generateAggregateQueries st with
    | .error e => .error e
    | .ok aggregateQueries =>
      let aggregateRenderer := generateAggregateRenderer st
      let aggregateCSS := generateAggregateCSS st
      .ok (singleShellSeg1 ++ escapedTitle ++ singleShellSeg2 ++ aggregateCSS
        ++ singleShellSeg3 ++ escapedTitle ++ singleShellSeg4
        ++ (if escapedDesc != "" then
              "<p style=\"color: #9ca3af; margin-top: 8px;\">" ++ escapedDesc ++ "</p>"
            else "")
        ++ singleShellSeg5 ++ "" ++ singleShellSeg6 ++ helperFunctions ++ singleShellSeg7
        ++ aggregateQueries ++ singleShellSeg8 ++ aggregateRenderer ++ singleShellSeg9
        ++ queryDeclaration ++ singleShellSeg10 ++ entityType ++ singleShellSeg11
        ++ displayFunction ++ singleShellSeg12 ++ "" ++ singleShellSeg13)

/-- `generateMultiEntityReport(title, description, displayMode)`
(src/builder.js:2224-2307): the compiler's entry point.  Exactly one
selected entity type takes the template path; otherwise the hierarchical
path.  The `${aggregateStats.length > 0 ? … : ''}` interpolations
(src/builder.js:2263 and 2285) always yield `''` (`aggregateStats` is an
object).  The environment `env` (wall clock) is threaded to witness that
the output does not depend on it. -/
def generateMultiEntityReport (env : JsEnv) (st : BuilderState)
    (title description displayMode : String) : Except JsError String :=
  if st.selectedEntityTypes.length == 1 then
    generateSingleEntityReport env st title description displayMode
  else
    let queries := generateGraphQLQueries st
    let displayFunction := generateHierarchicalDisplay st displayMode
    let helperFunctions := generateHelperFunctions
    let escapedTitle := escapeHTML (sanitizeInput title 200)
    let escapedDesc :=
      if description != "" then escapeHTML (sanitizeInput description 1000) else ""
    match generateAggregateQueries st with
    | .error e => .error e
    | .ok aggregateQueries =>
      let aggregateRenderer := generateAggregateRenderer st
      let aggregateCSS := generateAggregateCSS st
      .ok (multiShellSeg1 ++ escapedTitle ++ multiShellSeg2
        ++ generateReportCSS displayMode ++ multiShellSeg3 ++ aggregateCSS
        ++ multiShellSeg4 ++ escapedTitle ++ multiShellSeg5
        ++ (if escapedDesc != "" then "<p>" ++ escapedDesc ++ "</p>" else "")
        ++ multiShellSeg6 ++ "" ++ multiShellSeg7 ++ helperFunctions ++ multiShellSeg8
        ++ queries ++ multiShellSeg9 ++ aggregateQueries ++ multiShellSeg10
        ++ aggregateRenderer ++ multiShellSeg11 ++ displayFunction ++ multiShellSeg12
        ++ "" ++ multiShellSeg13)

/-- The decoding the artifact's own template literal applies when it is
executed (`\$` → `$`, `\n` → newline, `\\` → `\`, `` \` `` → `` ` ``):
used to state what the generated `const query` evaluates to at
runtime. -/
def templateUnescape : List Char → List Char
  | '\\' :: c :: rest => (if c == 'n' then '\n' else c) :: templateUnescape rest
  | c :: rest => c :: templateUnescape rest
  | [] => []

/-- The string value held by the generated fetch function's `const query`
at artifact runtime: a user override verbatim (it was embedded with
`JSON.stringify`, which JSON parsing inverts), or the decoded default
template. -/
def emittedQueryValue (st : BuilderState) (entityType : String) : String :=
  match getQueryOverrideForEntity st.selectedEntityTypes st.customQueryOverride entityType with
  | some o => o
  | none => String.mk (templateUnescape (defaultQueryTemplate st entityType).data)

/-- `unescapeHTML` consumes an `&lt;` entity. -/
theorem unescape_lt (r : List Char) :
    unescapeHTML ('&' :: 'l' :: 't' :: ';' :: r) = '<' :: unescapeHTML r := by
  rw [unescapeHTML]
  split_ifs with g1 g2 g3 g4 g5
  all_goals first
    | rfl
    | exact absurd rfl g1
    | exact absurd rfl g2
    | exact absurd rfl g3
    | exact absurd rfl g4
    | exact absurd rfl g5
    | exact Bool.noConfusion (show false = true from g1)
    | exact Bool.noConfusion (show false = true from g2)
    | exact Bool.noConfusion (show false = true from g3)
    | exact Bool.noConfusion (show false = true from g4)
    | exact Bool.noConfusion (show false = true from g5)

/-- `unescapeHTML` consumes an `&gt;` entity. -/
theorem unescape_gt (r : List Char) :
    unescapeHTML ('&' :: 'g' :: 't' :: ';' :: r) = '>' :: unescapeHTML r := by
  rw [unescapeHTML]
  split_ifs with g1 g2 g3 g4 g5
  all_goals first
    | rfl
    | exact absurd rfl g1
    | exact absurd rfl g2
    | exact absurd rfl g3
    | exact absurd rfl g4
    | exact absurd rfl g5
    | exact Bool.noConfusion (show false = true from g1)
    | exact Bool.noConfusion (show false = true from g2)
    | exact Bool.noConfusion (show false = true from g3)
    | exact Bool.noConfusion (show false = true from g4)
    | exact Bool.noConfusion (show false = true from g5)

/-- `unescapeHTML` consumes an `&amp;` entity. -/
theorem unescape_amp (r : List Char) :
    unescapeHTML ('&' :: 'a' :: 'm' :: 'p' :: ';' :: r) = '&' :: unescapeHTML r := by
  rw [unescapeHTML]
  split_ifs with g1 g2 g3 g4 g5
  all_goals first
    | rfl
    | exact absurd rfl g1
    | exact absurd rfl g2
    | exact absurd rfl g3
    | exact absurd rfl g4
    | exact absurd rfl g5
    | exact Bool.noConfusion (show false = true from g1)
    | exact Bool.noConfusion (show false = true from g2)
    | exact Bool.noConfusion (show false = true from g3)
    | exact Bool.noConfusion (show false = true from g4)
    | exact Bool.noConfusion (show false = true from g5)

/-- `unescapeHTML` consumes a `&quot;` entity. -/
theorem unescape_quot (r : List Char) :
    unescapeHTML ('&' :: 'q' :: 'u' :: 'o' :: 't' :: ';' :: r) = '"' :: unescapeHTML r := by
  rw [unescapeHTML]
  split_ifs with g1 g2 g3 g4 g5
  all_goals first
    | rfl
    | exact absurd rfl g1
    | exact absurd rfl g2
    | exact absurd rfl g3
    | exact absurd rfl g4
    | exact absurd rfl g5
    | exact Bool.noConfusion (show false = true from g1)
    | exact Bool.noConfusion (show false = true from g2)
    | exact Bool.noConfusion (show false = true from g3)
    | exact Bool.noConfusion (show false = true from g4)
    | exact Bool.noConfusion (show false = true from g5)

/-- `unescapeHTML` consumes an `&#39;` entity. -/
theorem unescape_apos (r : List Char) :
    unescapeHTML ('&' :: '#' :: '3' :: '9' :: ';' :: r) = '\'' :: unescapeHTML r := by
  rw [unescapeHTML]
  split_ifs with g1 g2 g3 g4 g5
  all_goals first
    | rfl
    | exact absurd rfl g1
    | exact absurd rfl g2
    | exact absurd rfl g3
    | exact absurd rfl g4
    | exact absurd rfl g5
    | exact Bool.noConfusion (show false = true from g1)
    | exact Bool.noConfusion (show false = true from g2)
    | exact Bool.noConfusion (show false = true from g3)
    | exact Bool.noConfusion (show false = true from g4)
    | exact Bool.noConfusion (show false = true from g5)

/-- `unescapeHTML` passes a non-`&` character through. -/
theorem unescape_cons_of_ne (c : Char) (r : List Char) (h : c ≠ '&') :
    unescapeHTML (c :: r) = c :: unescapeHTML r := by
  have hb : (c == '&') = false := by simp [h]
  rw [unescapeHTML]
  simp [hb]

/-- HTML-escaping is lossless: decoding the five entities recovers the
original character list. -/
theorem unescape_escape (l : List Char) :
    unescapeHTML (l.flatMap (fun c => (escapeChar c).data)) = l := by
  induction l with
  | nil =>
    show unescapeHTML [] = []
    rw [unescapeHTML]
  | cons c cs ih =>
    rw [List.flatMap_cons]
    by_cases h1 : c = '<'
    · subst h1
      show unescapeHTML ('&' :: 'l' :: 't' :: ';' :: cs.flatMap (fun c => (escapeChar c).data))
        = _
      rw [unescape_lt, ih]
    · by_cases h2 : c = '>'
      · subst h2
        show unescapeHTML ('&' :: 'g' :: 't' :: ';' :: cs.flatMap (fun c => (escapeChar c).data))
          = _
        rw [unescape_gt, ih]
      · by_cases h3 : c = '&'
        · subst h3
          show unescapeHTML
              ('&' :: 'a' :: 'm' :: 'p' :: ';' :: cs.flatMap (fun c => (escapeChar c).data)) = _
          rw [unescape_amp, ih]
        · by_cases h4 : c = '"'
          · subst h4
            show unescapeHTML
                ('&' :: 'q' :: 'u' :: 'o' :: 't' :: ';'
                  :: cs.flatMap (fun c => (escapeChar c).data)) = _
            rw [unescape_quot, ih]
          · by_cases h5 : c = '\''
            · subst h5
              show unescapeHTML
                  ('&' :: '#' :: '3' :: '9' :: ';'
                    :: cs.flatMap (fun c => (escapeChar c).data)) = _
              rw [unescape_apos, ih]
            · have hchunk : (escapeChar c).data = [c] := by
                simp [escapeChar, h1, h2, h3, h4, h5]
              rw [hchunk]
              show unescapeHTML (c :: cs.flatMap (fun c => (escapeChar c).data)) = _
              rw [unescape_cons_of_ne c _ h3, ih]

/-- The output of `escapeHTML` contains none of the raw characters
`< > " '`. -/
theorem escapeHTML_no_raw (s : String) :
    ((escapeHTML s).data.all
      (fun c => !(c == '<' || c == '>' || c == '"' || c == '\''))) = true := by
  unfold escapeHTML
  split_ifs with hs
  · rfl
  · rw [List.all_eq_true]
    intro x hx
    have hx2 : x ∈ s.data.flatMap (fun c => (escapeChar c).data) := hx
    rw [List.mem_flatMap] at hx2
    obtain ⟨c, _, hxc⟩ := hx2
    unfold escapeChar at hxc
    split_ifs at hxc with h1 h2 h3 h4 h5
    · have hm : x ∈ ['&', 'l', 't', ';'] := hxc
      rcases (by simpa using hm : x = '&' ∨ x = 'l' ∨ x = 't' ∨ x = ';')
        with rfl | rfl | rfl | rfl <;> decide
    · have hm : x ∈ ['&', 'g', 't', ';'] := hxc
      rcases (by simpa using hm : x = '&' ∨ x = 'g' ∨ x = 't' ∨ x = ';')
        with rfl | rfl | rfl | rfl <;> decide
    · have hm : x ∈ ['&', 'a', 'm', 'p', ';'] := hxc
      rcases (by simpa using hm : x = '&' ∨ x = 'a' ∨ x = 'm' ∨ x = 'p' ∨ x = ';')
        with rfl | rfl | rfl | rfl | rfl <;> decide
    · have hm : x ∈ ['&', 'q', 'u', 'o', 't', ';'] := hxc
      rcases (by simpa using hm :
          x = '&' ∨ x = 'q' ∨ x = 'u' ∨ x = 'o' ∨ x = 't' ∨ x = ';')
        with rfl | rfl | rfl | rfl | rfl | rfl <;> decide
    · have hm : x ∈ ['&', '#', '3', '9', ';'] := hxc
      rcases (by simpa using hm : x = '&' ∨ x = '#' ∨ x = '3' ∨ x = '9' ∨ x = ';')
        with rfl | rfl | rfl | rfl | rfl <;> decide
    · have hm : x ∈ [c] := hxc
      have hxceq : x = c := by simpa using hm
      subst hxceq
      have hc1 : (x == '<') = false := by simpa using h1
      have hc2 : (x == '>') = false := by simpa using h2
      have hc4 : (x == '"') = false := by simpa using h4
      have hc5 : (x == '\'') = false := by simpa using h5
      simp [hc1, hc2, hc4, hc5]

/-- A list without character `c` has no segment starting with `c`. -/
theorem no_char_no_seg (p : List Char) (c : Char) :
    ∀ (l : List Char), (∀ x ∈ l, x ≠ c) → hasSeg l (c :: p) = false := by
  intro l
  induction l with
  | nil => intro _; rfl
  | cons b bs ih =>
    intro hall
    show (leadingSeg (c :: p) (b :: bs) || hasSeg bs (c :: p)) = false
    have hcb : (c == b) = false := by
      simp only [beq_eq_false_iff_ne]
      exact fun hh => (hall b (by simp)) hh.symm
    show ((c == b) && leadingSeg p bs || hasSeg bs (c :: p)) = false
    rw [hcb, Bool.false_and, Bool.false_or]
    exact ih (fun x hx => hall x (by simp [hx]))

/-- `escapeHTML` output never contains the substring `<script>`. -/
theorem escapeHTML_no_script (s : String) :
    strIncludes (escapeHTML s) "<script>" = false := by
  show hasSeg (escapeHTML s).data ('<' :: "script>".data) = false
  apply no_char_no_seg
  intro x hx
  have hall := escapeHTML_no_raw s
  rw [List.all_eq_true] at hall
  have hh := hall x hx
  simp only [Bool.or_eq_true, Bool.not_eq_true'] at hh
  intro hlt
  subst hlt
  simp at hh

/-- C9: the label text embedded by the aggregate renderer generator is
`escapeHTML` of the stat's label (or of its generated default), and
`escapeHTML` output contains none of the raw characters `< > " '`, never
contains the substring `<script>`, and is losslessly decodable (so every
`&` in it belongs to an escape entity): a label appears in the emitted
artifact text only in escaped form. -/
theorem aggregate_label_escaped :
    (∀ stat : AggregateStat,
      statLabelText stat = escapeHTML (if stat.label != "" then stat.label
        else stat.operation ++ (if stat.field != "" then " " ++ stat.field else "")))
    ∧ (∀ s : String, ((escapeHTML s).data.all
        (fun c => !(c == '<' || c == '>' || c == '"' || c == '\''))) = true)
    ∧ (∀ s : String, strIncludes (escapeHTML s) "<script>" = false)
    ∧ (∀ s : String, unescapeHTML (escapeHTML s).data = s.data) := by
  refine ⟨fun stat => rfl, escapeHTML_no_raw, escapeHTML_no_script, ?_⟩
  intro s
  unfold escapeHTML
  split_ifs with h
  · have hs : s = "" := by simpa using h
    subst hs
    show unescapeHTML [] = "".data
    rw [unescapeHTML]
  · exact unescape_escape s.data

/-- C4: compilation is deterministic.  The compiled artifact is a
function of the builder state and the title/description/displayMode
arguments alone: two invocations under different environments (different
wall-clock readings — the only impure amenity the builder reads, and it
reads it only in `addAggregateStat`, at configuration-build time) yield
identical output, on both the multi-entity path and the single-entity
template path. -/
theorem compile_deterministic (env1 env2 : JsEnv) (st : BuilderState)
    (title description displayMode : String) :
    generateMultiEntityReport env1 st title description displayMode
      = generateMultiEntityReport env2 st title description displayMode
    ∧ generateSingleEntityReport env1 st title description displayMode
      = generateSingleEntityReport env2 st title description displayMode :=
  ⟨rfl, rfl⟩

/-- C6: a user override matched for an entity type replaces the
generated query verbatim: the emitted declaration embeds exactly the
override (as a JSON string literal, whose runtime value is the override
itself), and on the spec's two-heading scenario the parses give each
entity type its own custom query text. -/
theorem override_replaces_generated_query :
    (∀ (st : BuilderState) (et q : String),
      getQueryOverrideForEntity st.selectedEntityTypes st.customQueryOverride et = some q →
        querySnippet st et = "const query = " ++ jsonStringify q ++ ";"
        ∧ emittedQueryValue st et = q)
    ∧ getQueryOverrideForEntity ["A", "B"]
        "# A\n\x7bcustom A query\x7d\n# B\n\x7bcustom B query\x7d" "A"
        = some "\x7bcustom A query\x7d"
    ∧ getQueryOverrideForEntity ["A", "B"]
        "# A\n\x7bcustom A query\x7d\n# B\n\x7bcustom B query\x7d" "B"
        = some "\x7bcustom B query\x7d" := by
  refine ⟨?_, by decide, by decide⟩
  intro st et q h
  constructor
  · unfold querySnippet
    rw [h]
  · unfold emittedQueryValue
    rw [h]

/-- Witness for C6: the spec's scenario with entity types `A`, `B` as a
concrete builder state. -/
theorem override_replaces_generated_query_witness :
    getQueryOverrideForEntity
        (BuilderState.mk ⟨[]⟩ ["A", "B"] [] [] []
          "# A\n\x7bcustom A query\x7d\n# B\n\x7bcustom B query\x7d").selectedEntityTypes
        (BuilderState.mk ⟨[]⟩ ["A", "B"] [] [] []
          "# A\n\x7bcustom A query\x7d\n# B\n\x7bcustom B query\x7d").customQueryOverride
        "A" = some "\x7bcustom A query\x7d"
    ∧ querySnippet (BuilderState.mk ⟨[]⟩ ["A", "B"] [] [] []
          "# A\n\x7bcustom A query\x7d\n# B\n\x7bcustom B query\x7d") "A"
        = "const query = " ++ jsonStringify "\x7bcustom A query\x7d" ++ ";"
    ∧ emittedQueryValue (BuilderState.mk ⟨[]⟩ ["A", "B"] [] [] []
          "# A\n\x7bcustom A query\x7d\n# B\n\x7bcustom B query\x7d") "A"
        = "\x7bcustom A query\x7d" :=
  ⟨by decide,
    (override_replaces_generated_query.1
      (BuilderState.mk ⟨[]⟩ ["A", "B"] [] [] []
        "# A\n\x7bcustom A query\x7d\n# B\n\x7bcustom B query\x7d")
      "A" "\x7bcustom A query\x7d" (by decide)).1,
    (override_replaces_generated_query.1
      (BuilderState.mk ⟨[]⟩ ["A", "B"] [] [] []
        "# A\n\x7bcustom A query\x7d\n# B\n\x7bcustom B query\x7d")
      "A" "\x7bcustom A query\x7d" (by decide)).2⟩

/-- Counterexample to C7 as stated: with a SUM stat whose field is empty,
generation fails — but with a `ReferenceError` (the undeclared
`aggregateData` read in `generateAggregateQueries`,
src/builder.js:2044), not with a configuration error
(`ReportBuilderError`). -/
theorem aggregate_emptyfield_counterexample :
    generateMultiEntityReport ⟨0⟩
        (BuilderState.mk
          ⟨[⟨"A", some ⟨["id"], [], [], []⟩⟩, ⟨"B", some ⟨["id"], [], [], []⟩⟩]⟩
          ["A", "B"] [] [("A", [⟨"id", "basic", "detail", true⟩])]
          [("A", [⟨1, "SUM", "", ""⟩])] "")
        "Report" "" "table"
      = .error (.referenceError "aggregateData")
    ∧ ¬ ∃ msg code, generateMultiEntityReport ⟨0⟩
        (BuilderState.mk
          ⟨[⟨"A", some ⟨["id"], [], [], []⟩⟩, ⟨"B", some ⟨["id"], [], [], []⟩⟩]⟩
          ["A", "B"] [] [("A", [⟨"id", "basic", "detail", true⟩])]
          [("A", [⟨1, "SUM", "", ""⟩])] "")
        "Report" "" "table"
      = .error (.builderError msg code) := by
  refine ⟨rfl, ?_⟩
  rintro ⟨msg, code, h⟩
  have h2 : (Except.error (JsError.referenceError "aggregateData") : Except JsError String)
      = .error (.builderError msg code) := h
  simp at h2

/-- C7 as amended: once any aggregate stat is configured — in particular
a numeric-operation stat with an empty field — generation on the
multi-entity path fails with a `ReferenceError` on the undeclared
`aggregateData` variable, not with a configuration error; the stat is
never silently skipped or silently emitted without its field, because
emission is never reached. -/
theorem aggregate_stat_generation_referenceError (env : JsEnv) (st : BuilderState)
    (title description displayMode : String)
    (hstat : st.aggregateStats.any (fun kv => kv.2.any (fun stat =>
      (stat.operation == "SUM" || stat.operation == "AVG" || stat.operation == "MIN"
        || stat.operation == "MAX") && stat.field == "")) = true)
    (hmulti : st.selectedEntityTypes.length ≠ 1) :
    generateAggregateQueries st = .error (.referenceError "aggregateData")
    ∧ generateMultiEntityReport env st title description displayMode
        = .error (.referenceError "aggregateData") := by
  have hhas : (st.aggregateStats.any (fun kv => kv.2.length > 0)) = true := by
    rw [List.any_eq_true] at hstat ⊢
    obtain ⟨kv, hkv, hp⟩ := hstat
    refine ⟨kv, hkv, ?_⟩
    rw [List.any_eq_true] at hp
    obtain ⟨stat, hstat2, _⟩ := hp
    cases h2 : kv.2 with
    | nil => rw [h2] at hstat2; simp at hstat2
    | cons a t => simp
  have hq : generateAggregateQueries st = .error (.referenceError "aggregateData") := by
    simp only [generateAggregateQueries]
    rw [hhas]
    simp
  refine ⟨hq, ?_⟩
  have hne : (st.selectedEntityTypes.length == 1) = false := by
    simpa using hmulti
  simp only [generateMultiEntityReport, hne, Bool.false_eq_true, if_false]
  rw [hq]

/-- Witness for the amended C7 at a concrete input. -/
theorem aggregate_stat_generation_referenceError_witness :
    ((BuilderState.mk
        ⟨[⟨"A", some ⟨["id"], [], [], []⟩⟩, ⟨"B", some ⟨["id"], [], [], []⟩⟩]⟩
        ["A", "B"] [] [("A", [⟨"id", "basic", "detail", true⟩])]
        [("A", [⟨1, "SUM", "", ""⟩])] "").aggregateStats.any (fun kv =>
          kv.2.any (fun stat =>
            (stat.operation == "SUM" || stat.operation == "AVG"
              || stat.operation == "MIN" || stat.operation == "MAX")
            && stat.field == "")) = true)
    ∧ generateAggregateQueries (BuilderState.mk
        ⟨[⟨"A", some ⟨["id"], [], [], []⟩⟩, ⟨"B", some ⟨["id"], [], [], []⟩⟩]⟩
        ["A", "B"] [] [("A", [⟨"id", "basic", "detail", true⟩])]
        [("A", [⟨1, "SUM", "", ""⟩])] "")
      = .error (.referenceError "aggregateData") :=
  ⟨by decide,
    (aggregate_stat_generation_referenceError ⟨0⟩
      (BuilderState.mk
        ⟨[⟨"A", some ⟨["id"], [], [], []⟩⟩, ⟨"B", some ⟨["id"], [], [], []⟩⟩]⟩
        ["A", "B"] [] [("A", [⟨"id", "basic", "detail", true⟩])]
        [("A", [⟨1, "SUM", "", ""⟩])] "")
      "Report" "" "table" (by decide) (by decide)).1⟩

set_option maxRecDepth 16384 in
/-- Counterexample to C8 as stated: an entity type `X` whose schema has
only the basic field `weird` (no `entityId`, no `entityName`) and whose
selection needs no basic field.  The claimed fallback chain would make
the compiled query request `weird`; the compiled emission instead
requests the fixed triple `entityId entityName entityType` without
consulting the schema and without any error — the claimed chain (with
its hard error) is implemented only by the query-inspector's
`buildFieldSelectionSet`. -/
theorem compiled_fallback_counterexample :
    defaultBasicSelection (getFieldsNeededForEntity
        (BuilderState.mk ⟨[⟨"X", some ⟨["weird"], ["status"], [], []⟩⟩]⟩
          ["X", "Y"] [] [("X", [⟨"status", "tag", "detail", true⟩])] [] "") "X")
      = "entityId\n            entityName\n            entityType"
    ∧ strIncludes (defaultQueryTemplate
        (BuilderState.mk ⟨[⟨"X", some ⟨["weird"], ["status"], [], []⟩⟩]⟩
          ["X", "Y"] [] [("X", [⟨"status", "tag", "detail", true⟩])] [] "") "X")
        "weird" = false
    ∧ availableBasicOf
        (BuilderState.mk ⟨[⟨"X", some ⟨["weird"], ["status"], [], []⟩⟩]⟩
          ["X", "Y"] [] [("X", [⟨"status", "tag", "detail", true⟩])] [] "").schema "X"
      = ["weird"]
    ∧ buildFieldSelectionSet
        (BuilderState.mk ⟨[⟨"X", some ⟨["weird"], ["status"], [], []⟩⟩]⟩
          ["X", "Y"] [] [("X", [⟨"status", "tag", "detail", true⟩])] [] "") "X"
      = .ok "        weird\\n        tags \x7b key value \x7d" := by
  decide

/-- C8 as amended: in the compiled query emission, an entity type
needing no basic field gets the fixed fallback selection
`entityId entityName entityType` (no schema consulted, no error); the
entityId → entityName → first-basic-field → hard-error chain belongs to
`buildFieldSelectionSet`, the query-inspector path, where an empty
schema basic list does produce the `NO_FIELDS_AVAILABLE` error. -/
theorem compiled_query_fallback_fixed :
    (∀ (st : BuilderState) (et : String),
      (getFieldsNeededForEntity st et).any (fun f => f.location == "basic") = false →
        defaultBasicSelection (getFieldsNeededForEntity st et)
          = "entityId\n            entityName\n            entityType")
    ∧ (∀ (st : BuilderState) (et : String),
        (getFieldsNeededForEntity st et).any (fun f => f.location == "basic") = false →
        availableBasicOf st.schema et = [] →
          buildFieldSelectionSet st et
            = .error (.builderError ("No fields available for entity type: " ++ et)
                "NO_FIELDS_AVAILABLE")) := by
  constructor
  · intro st et h
    unfold defaultBasicSelection
    rw [h]
    simp
  · intro st et h h2
    have hfil : (getFieldsNeededForEntity st et).filter (fun f => f.location == "basic")
        = [] := by
      rw [List.filter_eq_nil_iff]
      rw [List.any_eq_false] at h
      exact h
    simp only [buildFieldSelectionSet]
    rw [hfil, h2]
    simp

/-- Witness for the amended C8 at concrete inputs (one state per
conjunct). -/
theorem compiled_query_fallback_fixed_witness :
    ((getFieldsNeededForEntity
        (BuilderState.mk ⟨[⟨"X", some ⟨["weird"], ["status"], [], []⟩⟩]⟩
          ["X", "Y"] [] [("X", [⟨"status", "tag", "detail", true⟩])] [] "") "X").any
        (fun f => f.location == "basic") = false
      ∧ defaultBasicSelection (getFieldsNeededForEntity
          (BuilderState.mk ⟨[⟨"X", some ⟨["weird"], ["status"], [], []⟩⟩]⟩
            ["X", "Y"] [] [("X", [⟨"status", "tag", "detail", true⟩])] [] "") "X")
          = "entityId\n            entityName\n            entityType")
    ∧ ((getFieldsNeededForEntity
        (BuilderState.mk ⟨[⟨"Z", some ⟨[], [], [], []⟩⟩]⟩ ["Z"] [] [] [] "") "Z").any
        (fun f => f.location == "basic") = false
      ∧ availableBasicOf
          (BuilderState.mk ⟨[⟨"Z", some ⟨[], [], [], []⟩⟩]⟩ ["Z"] [] [] [] "").schema "Z"
        = []
      ∧ buildFieldSelectionSet
          (BuilderState.mk ⟨[⟨"Z", some ⟨[], [], [], []⟩⟩]⟩ ["Z"] [] [] [] "") "Z"
        = .error (.builderError ("No fields available for entity type: " ++ "Z")
            "NO_FIELDS_AVAILABLE")) :=
  ⟨⟨by decide,
    compiled_query_fallback_fixed.1
      (BuilderState.mk ⟨[⟨"X", some ⟨["weird"], ["status"], [], []⟩⟩]⟩
        ["X", "Y"] [] [("X", [⟨"status", "tag", "detail", true⟩])] [] "") "X" (by decide)⟩,
   ⟨by decide, by decide,
    compiled_query_fallback_fixed.2
      (BuilderState.mk ⟨[⟨"Z", some ⟨[], [], [], []⟩⟩]⟩ ["Z"] [] [] [] "") "Z"
      (by decide) (by decide)⟩⟩

end TPReport
